import Mathlib

/-!
The LINE Notify client of `notify.go` (package `goline`).

A shallow embedding of package `goline` and a verification of its documented
behaviour.

* Go strings are byte sequences (`GoString`); the code-point count
  `len([]rune(s))` follows the decoding rules of `unicode/utf8`.
* The process-wide variable `notificationDisabled`, the HTTP requests handed
  to `http.Client.Do` and the paths handed to `os.Open` are fields of an
  explicit `State` threaded through every operation.
* What the package cannot decide by itself (the file system and the remote
  endpoint) is a parameter, `World`.
* The library routines used by the package (`url.Values`, `url.QueryEscape`,
  `filepath.Split`, `filepath.Ext`, `fmt.Sprintf`) are written out as they
  behave on a Unix system.
-/

namespace GoLine

/-! ## Strings -/

/-- A Go string: an immutable sequence of bytes, not necessarily valid UTF-8. -/
abbrev GoString := List UInt8

/-- The bytes of a string literal of the source file (Go source text is UTF-8). -/
def utf8 (s : String) : GoString := s.data.flatMap String.utf8EncodeChar

/-- Table `first` of `unicode/utf8` for a lead byte that is not ASCII: the width
of the encoding and the accepted range of the second byte, or `none` for
a byte that cannot start a rune (the entries `xx` of the table). -/
def first (c : Nat) : Option (Nat × Nat × Nat) :=
  if c < 0xC2 then none
  else if c ≤ 0xDF then some (2, 0x80, 0xBF)
  else if c = 0xE0 then some (3, 0xA0, 0xBF)
  else if c ≤ 0xEC then some (3, 0x80, 0xBF)
  else if c = 0xED then some (3, 0x80, 0x9F)
  else if c ≤ 0xEF then some (3, 0x80, 0xBF)
  else if c = 0xF0 then some (4, 0x90, 0xBF)
  else if c ≤ 0xF3 then some (4, 0x80, 0xBF)
  else if c = 0xF4 then some (4, 0x80, 0x8F)
  else none

/-- Whether a byte lies outside the continuation range `locb..hicb`. -/
def notCont (c : UInt8) : Bool := c.toNat < 0x80 || 0xBF < c.toNat

/-- Number of bytes consumed by decoding one rune whose first byte is `c` and
whose following bytes are `rest`: the loop body of `utf8.RuneCountInString`.
An invalid or truncated encoding consumes one byte (it decodes to U+FFFD). -/
def runeWidth (c : UInt8) (rest : GoString) : Nat :=
  if c.toNat < 0x80 then 1
  else
    match first c.toNat with
    | none => 1
    | some (size, lo, hi) =>
      if rest.length + 1 < size then 1
      else
        match rest with
        | [] => 1
        | c1 :: t1 =>
          if c1.toNat < lo || hi < c1.toNat then 1
          else if size = 2 then 2
          else
            match t1 with
            | [] => 1
            | c2 :: t2 =>
              if notCont c2 then 1
              else if size = 3 then 3
              else
                match t2 with
                | [] => 1
                | c3 :: _ => if notCont c3 then 1 else 4

/-- Rune count of the bytes `s`, of which the first `skip` still belong to the
rune counted last. -/
def runeCountFrom : Nat → GoString → Nat
  | _, [] => 0
  | 0, c :: rest => runeCountFrom (runeWidth c rest - 1) rest + 1
  | skip + 1, _ :: rest => runeCountFrom skip rest

/-- The Go expression `len([]rune(s))`: the number of code points of `s`. -/
def runeCount (s : GoString) : Nat := runeCountFrom 0 s

/-- The Go call `fmt.Sprintf("%d", n)` for an integer. -/
def formatInt (n : Int) : GoString := utf8 (toString n)

/-- The Go call `fmt.Sprintf("%t", b)`. -/
def formatBool (b : Bool) : GoString := if b then utf8 "true" else utf8 "false"

/-- Byte-wise lexicographic order of Go strings, `a <= b`. -/
def strLe : GoString → GoString → Bool
  | [], _ => true
  | _ :: _, [] => false
  | a :: as, b :: bs => a.toNat < b.toNat || (a.toNat == b.toNat && strLe as bs)

/-! ## `net/url`: form values -/

/-- The type `url.Values`, a `map[string][]string`: one entry per key. -/
structure Values where
  entries : List (GoString × List GoString)
deriving DecidableEq

/-- The empty form `url.Values{}`. -/
def Values.empty : Values := ⟨[]⟩

/-- Appends `value` to the values of `key` in a list of entries. -/
def addEntry (key value : GoString) :
    List (GoString × List GoString) → List (GoString × List GoString)
  | [] => [(key, [value])]
  | (k, vs) :: rest =>
    if k = key then (k, vs ++ [value]) :: rest else (k, vs) :: addEntry key value rest

/-- The method `Values.Add`: `v[key] = append(v[key], value)`. -/
def Values.Add (v : Values) (key value : GoString) : Values :=
  ⟨addEntry key value v.entries⟩

/-- The index expression `v[key]`: all values of `key`, in the order they were added. -/
def Values.lookup (v : Values) (key : GoString) : List GoString :=
  match v.entries.find? (fun e => e.1 = key) with
  | some e => e.2
  | none => []

/-- The digit `"0123456789ABCDEF"[n]` used by percent-encoding. -/
def upperhex (n : Nat) : UInt8 :=
  if n < 10 then (48 + n).toUInt8 else (55 + n).toUInt8

/-- The function `shouldEscape(c, encodeQueryComponent)` of `net/url`: letters,
digits and `- _ . ~` are kept, every other byte is escaped. -/
def shouldEscape (c : UInt8) : Bool :=
  let n := c.toNat
  !((97 ≤ n && n ≤ 122) || (65 ≤ n && n ≤ 90) || (48 ≤ n && n ≤ 57) ||
    n == 45 || n == 95 || n == 46 || n == 126)

/-- The function `url.QueryEscape`: a space becomes `+`, every other escaped byte
becomes `%XX`. -/
def QueryEscape : GoString → GoString
  | [] => []
  | c :: rest =>
    if shouldEscape c then
      if c.toNat = 32 then 43 :: QueryEscape rest
      else 37 :: upperhex (c.toNat / 16) :: upperhex (c.toNat % 16) :: QueryEscape rest
    else c :: QueryEscape rest

/-- Inserts an entry into a list of entries sorted by key. -/
def insertByKey (e : GoString × List GoString) :
    List (GoString × List GoString) → List (GoString × List GoString)
  | [] => [e]
  | x :: rest => if strLe e.1 x.1 then e :: x :: rest else x :: insertByKey e rest

/-- The entries in the order of `slices.Sort` applied to their keys. -/
def sortByKey : List (GoString × List GoString) → List (GoString × List GoString)
  | [] => []
  | e :: rest => insertByKey e (sortByKey rest)

/-- Writes `key=value` for every value of one key, each pair preceded by `&`
unless the buffer is still empty: the inner loop of `Values.Encode`. -/
def encodeKey (keyEscaped : GoString) : List GoString → GoString → GoString
  | [], buf => buf
  | v :: vs, buf =>
    encodeKey keyEscaped vs
      ((if buf.length > 0 then buf ++ [38] else buf) ++ keyEscaped ++ [61] ++ QueryEscape v)

/-- The outer loop of `Values.Encode` over the sorted keys. -/
def encodeEntries : List (GoString × List GoString) → GoString → GoString
  | [], buf => buf
  | (k, vs) :: rest, buf => encodeEntries rest (encodeKey (QueryEscape k) vs buf)

/-- The method `Values.Encode`: the form in URL-encoded form, sorted by key. -/
def Values.Encode (v : Values) : GoString := encodeEntries (sortByKey v.entries) []

/-! ## `path/filepath` (Unix) -/

/-- The backwards scan of `filepath.Split`: `before` holds the bytes not yet
visited, last byte first, and `acc` the bytes already passed; the scan stops at
the first separator `/`. -/
def splitScan : GoString → GoString → GoString
  | [], acc => acc
  | c :: before, acc => if c.toNat = 47 then acc else splitScan before (c :: acc)

/-- The second result of `filepath.Split(path)`: what follows the final `/`. -/
def splitFile (path : GoString) : GoString := splitScan path.reverse []

/-- The backwards scan of `filepath.Ext`: it stops with the empty string at a
separator `/` and with the suffix `path[i:]` at the first dot met. -/
def extScan : GoString → GoString → GoString
  | [], _ => []
  | c :: before, acc =>
    if c.toNat = 47 then []
    else if c.toNat = 46 then c :: acc
    else extScan before (c :: acc)

/-- The function `filepath.Ext(path)`: the suffix beginning at the final dot of
the final element of `path`, empty if there is no dot. -/
def Ext (path : GoString) : GoString := extScan path.reverse []

/-! ## `net/http` and `mime/multipart` -/

/-- The types `http.Header` and `textproto.MIMEHeader`, both a
`map[string][]string` with canonical keys. -/
structure Header where
  entries : List (GoString × List GoString)
deriving DecidableEq

/-- Replaces the values of `key` by the single `value` in a list of entries. -/
def setEntry (key value : GoString) :
    List (GoString × List GoString) → List (GoString × List GoString)
  | [] => [(key, [value])]
  | (k, vs) :: rest =>
    if k = key then (k, [value]) :: rest else (k, vs) :: setEntry key value rest

/-- The method `Set` of a header: `h[key] = []string{value}`; every key set by
the package is already in canonical form. -/
def Header.Set (h : Header) (key value : GoString) : Header :=
  ⟨setEntry key value h.entries⟩

/-- The method `Get` of a header: the first value of `key`, or the empty string. -/
def Header.Get (h : Header) (key : GoString) : GoString :=
  match h.entries.find? (fun e => e.1 = key) with
  | some e => e.2.headD []
  | none => []

/-- One part written to a `multipart.Writer`: its MIME header and its content. -/
structure Part where
  header : Header
  data : GoString
deriving DecidableEq

/-- The part written by `w.WriteField(fieldname, value)`; none of the field names
used by the package holds a quote or backslash to escape. -/
def fieldPart (fieldname value : GoString) : Part :=
  { header := (Header.mk []).Set (utf8 "Content-Disposition")
      (utf8 "form-data; name=\"" ++ fieldname ++ utf8 "\"")
    data := value }

/-- The method `FormDataContentType` of a `multipart.Writer` with boundary `b`:
the boundary is quoted when it holds a space or one of the special characters
of RFC 2045. -/
def FormDataContentType (b : GoString) : GoString :=
  utf8 "multipart/form-data; boundary=" ++
    (if b.any (fun c => c ∈ utf8 "()<>@,;:\\\"/[]?= ") then utf8 "\"" ++ b ++ utf8 "\""
      else b)

/-- The body handed to `http.NewRequest`: either the reader over
`form.Encode()`, kept as the form it encodes, or the buffer filled by a
`multipart.Writer`, kept as its boundary and the parts written to it. -/
inductive Body where
  | form (v : Values)
  | multipart (boundary : GoString) (parts : List Part)
deriving DecidableEq

/-- The header lines `Key: value` of a part, in sorted key order. -/
def headerLines : List (GoString × List GoString) → GoString
  | [] => []
  | (k, vs) :: rest =>
    (vs.map (fun v => k ++ utf8 ": " ++ v ++ utf8 "\r\n")).flatten ++ headerLines rest

/-- The bytes `multipart.Writer.CreatePart` and the writes that follow put into the
buffer for each part; `started` tells whether a part was written before. -/
def partsWire (boundary : GoString) : List Part → Bool → GoString
  | [], _ => []
  | p :: ps, started =>
    (if started then utf8 "\r\n--" else utf8 "--") ++ boundary ++ utf8 "\r\n" ++
      headerLines (sortByKey p.header.entries) ++ utf8 "\r\n" ++ p.data ++
      partsWire boundary ps true

/-- The bytes of a request body as they go on the wire. -/
def Body.wire : Body → GoString
  | .form v => v.Encode
  | .multipart boundary parts =>
    partsWire boundary parts false ++ utf8 "\r\n--" ++ boundary ++ utf8 "--\r\n"

/-- The values of the form field `name` carried by a body: `v[name]` for a URL-encoded
form, the contents of the parts written by `WriteField(name, _)` for a multipart
body. -/
def Body.field (name : GoString) : Body → List GoString
  | .form v => v.lookup name
  | .multipart _ parts =>
    (parts.filter (fun p => p.header = (fieldPart name []).header)).map (fun p => p.data)

/-- The value of type `*http.Request` built by `http.NewRequest` and the header
assignments that follow it. -/
structure Request where
  method : GoString
  url : GoString
  header : Header
  body : Body
deriving DecidableEq

/-- The fields of `*http.Response` read by the package. -/
structure Response where
  StatusCode : Int
  Status : GoString
deriving DecidableEq

/-- An error value made outside the package, by `os`, `io` or `net/http`. -/
structure ForeignError where
  text : GoString
deriving DecidableEq

/-- A non-nil value of type `error`: one made by `errors.New(text)` in this
package, or one handed over unchanged from `os`, `io` or `net/http`. -/
inductive GoError where
  | new (text : GoString)
  | foreign (e : ForeignError)
deriving DecidableEq

/-- The method `Error()` of an error value. -/
def GoError.Error : GoError → GoString
  | .new text => text
  | .foreign e => e.text

/-- What the package does not decide by itself.
* `fileExists path` is the first result of `goio.FileExists(path)`.
* `osOpen path` is the error of `os.Open(path)`, or else the outcome of
  `io.Copy` from the opened file: a read error, or the bytes of the file.
* `clientDo req` is the result of `(&http.Client{}).Do(req)`.
* `boundary` is the random boundary chosen by `multipart.NewWriter`. -/
structure World where
  fileExists : GoString → Bool
  osOpen : GoString → Except ForeignError (Except ForeignError GoString)
  clientDo : Request → Except ForeignError Response
  boundary : GoString

/-- The mutable state the package touches: the package-level variable
`notificationDisabled`, the requests passed to `client.Do` so far and the
paths passed to `os.Open` so far, oldest first. -/
structure State where
  notificationDisabled : Bool
  sent : List Request
  opened : List GoString
deriving DecidableEq

/-! ## Package `goline` -/

/-- The constant `LINE_NOTIFY_URL`. -/
def LINE_NOTIFY_URL : GoString := utf8 "https://notify-api.line.me/api/notify"

/-- The struct `LineNotifyToken`. -/
structure LineNotifyToken where
  Token : GoString
  Tag : GoString
deriving DecidableEq

/-- The function `NewNotifyClientWithTag`. -/
def NewNotifyClientWithTag (token tag : GoString) (s : State) : LineNotifyToken × State :=
  (⟨token, tag⟩, { s with notificationDisabled := false })

/-- The function `NewNotifyClient`. -/
def NewNotifyClient (token : GoString) (s : State) : LineNotifyToken × State :=
  NewNotifyClientWithTag token (utf8 "") s

/-- The function `LineNotificationOn`. -/
def LineNotificationOn (s : State) : State :=
  { s with notificationDisabled := false }

/-- The function `LineNotificationOff`. -/
def LineNotificationOff (s : State) : State :=
  { s with notificationDisabled := true }

/-- The method `sendFormData`. The results are the returned error (`none` for
`nil`) and the state left behind. `url.ParseRequestURI` and `http.NewRequest`
do not fail on the constant `LINE_NOTIFY_URL`, and `requri.String()` gives that
constant back. -/
def sendFormData (w : World) (t : LineNotifyToken) (msg : GoString) (form : Values)
    (s : State) : Option GoError × State :=
  if runeCount msg > 1000 then
    (some (.new (utf8 "1000文字より多いメッセージは送信できません")), s)
  else
    let msg := if t.Tag.length > 0 then utf8 "[" ++ t.Tag ++ utf8 "]\n" ++ msg else msg
    let form := form.Add (utf8 "message") msg
    let strbool := formatBool s.notificationDisabled
    let form := form.Add (utf8 "notificationDisabled") strbool
    let req : Request :=
      { method := utf8 "POST"
        url := LINE_NOTIFY_URL
        header := ((Header.mk []).Set (utf8 "Content-Type")
          (utf8 "application/x-www-form-urlencoded")).Set (utf8 "Authorization")
          (utf8 "Bearer " ++ t.Token)
        body := .form form }
    let s := { s with sent := s.sent ++ [req] }
    match w.clientDo req with
    | .error err => (some (.foreign err), s)
    | .ok resp =>
      if resp.StatusCode ≠ 200 then
        (some (.new (utf8 "[status code: " ++ resp.Status ++ utf8 "] Failed to send data")), s)
      else (none, s)

/-- The method `SendMessage`. -/
def SendMessage (w : World) (t : LineNotifyToken) (msg : GoString) (s : State) :
    Option GoError × State :=
  let form := Values.empty
  sendFormData w t msg form s

/-- The method `SendImageUrl`. -/
def SendImageUrl (w : World) (t : LineNotifyToken) (msg imgurl thumbUrl : GoString)
    (s : State) : Option GoError × State :=
  let form := Values.empty
  let form := form.Add (utf8 "imageFullsize") imgurl
  let form := form.Add (utf8 "imageThumbnail") thumbUrl
  sendFormData w t msg form s

/-- The method `SendSticker`; an `int32` argument is an integer, on which the
method only compares and prints. -/
def SendSticker (w : World) (t : LineNotifyToken) (msg : GoString) (packageId id : Int)
    (s : State) : Option GoError × State :=
  if packageId < 1 ∨ packageId > 4 then
    (some (.new (utf8 "スタンプのパッケージ識別子が不正です")), s)
  else if ¬((1 ≤ id ∧ id ≤ 47) ∨ (100 ≤ id ∧ id ≤ 307) ∨
      (401 ≤ id ∧ id ≤ 430) ∨ (501 ≤ id ∧ id ≤ 527) ∨
      (601 ≤ id ∧ id ≤ 632)) then
    (some (.new (utf8 "スタンプの識別子が不正です")), s)
  else
    let form := Values.empty
    let form := form.Add (utf8 "stickerPackageId") (formatInt packageId)
    let form := form.Add (utf8 "stickerId") (formatInt id)
    sendFormData w t msg form s

/-- The method `SendImageFile`. Writing to the in-memory buffer of the
`multipart.Writer` does not fail, nor does `http.NewRequest` on the constant
`LINE_NOTIFY_URL`. -/
def SendImageFile (w : World) (t : LineNotifyToken) (msg imgpath : GoString) (s : State) :
    Option GoError × State :=
  if runeCount msg > 1000 then
    (some (.new (utf8 "1000文字より多いメッセージは送信できません")), s)
  else if imgpath.length ≤ 0 then
    (some (.new (utf8 "画像ファイルのPathを指定してください")), s)
  else if !w.fileExists imgpath then
    (some (.new (utf8 "画像ファイルが存在しません")), s)
  else
    let msg := if t.Tag.length > 0 then utf8 "[" ++ t.Tag ++ utf8 "]\n" ++ msg else msg
    let parts := [fieldPart (utf8 "message") msg]
    let b := formatBool s.notificationDisabled
    let parts := parts ++ [fieldPart (utf8 "notificationDisabled") b]
    let filename := splitFile imgpath
    let ext := Ext imgpath
    let part := (Header.mk []).Set (utf8 "Content-Disposition")
      (utf8 "form-data; name=\"imageFile\"; filename=" ++ filename)
    let typed : Option Header :=
      if ext = utf8 ".jpeg" ∨ ext = utf8 ".jpg" ∨ ext = utf8 ".JPEG" ∨ ext = utf8 ".JPG" then
        some (part.Set (utf8 "Content-Type") (utf8 "image/jpeg"))
      else if ext = utf8 ".png" ∨ ext = utf8 ".PNG" then
        some (part.Set (utf8 "Content-Type") (utf8 "image/png"))
      else none
    match typed with
    | none =>
      (some (.new (utf8 "LINE Notifyでは[jpeg/png]形式の画像のみをサポートしています")), s)
    | some part =>
      let s := { s with opened := s.opened ++ [imgpath] }
      match w.osOpen imgpath with
      | .error err => (some (.foreign err), s)
      | .ok stream =>
        match stream with
        | .error err => (some (.foreign err), s)
        | .ok content =>
          let parts := parts ++ [{ header := part, data := content }]
          let req : Request :=
            { method := utf8 "POST"
              url := LINE_NOTIFY_URL
              header := ((Header.mk []).Set (utf8 "Content-Type")
                (FormDataContentType w.boundary)).Set
                (utf8 "Authorization") (utf8 "Bearer " ++ t.Token)
              body := .multipart w.boundary parts }
          let s := { s with sent := s.sent ++ [req] }
          match w.clientDo req with
          | .error err => (some (.foreign err), s)
          | .ok resp =>
            if resp.StatusCode ≠ 200 then
              (some (.new (utf8 "[status code: " ++ resp.Status ++
                utf8 "] Failed to send data")), s)
            else (none, s)

/-! ## Sample inputs -/

/-- The paths of the files of `sampleWorld`. -/
def sampleFiles : List GoString :=
  [utf8 "/tmp/a.png", utf8 "/tmp/b.JPG", utf8 "/tmp/a.Jpg", utf8 "/tmp/a.jPeG",
    utf8 "/tmp/a.Png", utf8 "/tmp/a.gif"]

/-- A world in which the files `sampleFiles` exist and can be read, and whose
endpoint answers every request with `200 OK`. -/
def sampleWorld : World :=
  { fileExists := fun path => decide (path ∈ sampleFiles)
    osOpen := fun path =>
      if path ∈ sampleFiles then .ok (.ok [137, 80, 78, 71])
      else .error ⟨utf8 "no such file or directory"⟩
    clientDo := fun _ => .ok ⟨200, utf8 "200 OK"⟩
    boundary := utf8 "0123456789abcdef0123456789abcdef0123456789abcdef0123456789ab" }

/-- A world like `sampleWorld` whose endpoint refuses the token. -/
def unauthorizedWorld : World :=
  { sampleWorld with clientDo := fun _ => .ok ⟨401, utf8 "401 Unauthorized"⟩ }

/-- The state of a fresh process: notifications on, nothing sent or opened. -/
def sampleState : State := ⟨false, [], []⟩

/-- The client with token `tok` and no tag. -/
def sampleClient : LineNotifyToken := ⟨utf8 "tok", utf8 ""⟩

/-- The client with token `tok` and tag `ops`. -/
def taggedClient : LineNotifyToken := ⟨utf8 "tok", utf8 "ops"⟩

/-! ## Code points -/

theorem first_spec (c size lo hi : Nat) (h : first c = some (size, lo, hi)) :
    (size = 2 ∨ size = 3 ∨ size = 4) ∧ 0x80 ≤ lo := by
  unfold first at h
  split_ifs at h <;> simp at h <;> omega

theorem runeWidth_le (c : UInt8) (rest : GoString) : runeWidth c rest ≤ rest.length + 1 := by
  unfold runeWidth
  repeat' split
  all_goals simp_all

theorem notCont_ascii (a : UInt8) (ha : a.toNat < 0x80) : notCont a = true := by
  simp [notCont, ha]

/-- An ASCII byte after the bytes examined never completes a rune: the width
decoded at `c` is the same with and without what follows. -/
theorem runeWidth_append_ascii (c a : UInt8) (rest t : GoString) (ha : a.toNat < 0x80) :
    runeWidth c (rest ++ a :: t) = runeWidth c rest := by
  unfold runeWidth
  by_cases hc : c.toNat < 0x80
  · simp [hc]
  · simp only [hc, if_false]
    rcases hf : first c.toNat with _ | ⟨size, lo, hi⟩
    · rfl
    · obtain ⟨hs, hlo⟩ := first_spec _ _ _ _ hf
      have hna := notCont_ascii a ha
      have halo : a.toNat < lo := by omega
      rcases rest with _ | ⟨x, _ | ⟨y, _ | ⟨z, tl⟩⟩⟩
      · rcases hs with rfl | rfl | rfl <;> simp [halo]
      · rcases hs with rfl | rfl | rfl <;> simp [halo, hna]
      · rcases hs with rfl | rfl | rfl <;> simp [halo, hna]
      · rcases hs with rfl | rfl | rfl <;> simp <;> split_ifs <;> first | rfl | omega

theorem runeCountFrom_append (a : UInt8) (t : GoString) (ha : a.toNat < 0x80) :
    ∀ (s : GoString) (k : Nat), k ≤ s.length →
      runeCountFrom k (s ++ a :: t) = runeCountFrom k s + runeCountFrom 0 (a :: t) := by
  intro s
  induction s with
  | nil =>
    intro k hk
    have : k = 0 := by simpa using hk
    subst this
    simp [runeCountFrom]
  | cons c rest ih =>
    intro k hk
    cases k with
    | zero =>
      have h1 := runeWidth_le c rest
      have h2 := runeWidth_append_ascii c a rest t ha
      show runeCountFrom (runeWidth c (rest ++ a :: t) - 1) (rest ++ a :: t) + 1 =
        runeCountFrom (runeWidth c rest - 1) rest + 1 + runeCountFrom 0 (a :: t)
      rw [h2, ih _ (by omega)]
      omega
    | succ k =>
      show runeCountFrom k (rest ++ a :: t) = runeCountFrom k rest + runeCountFrom 0 (a :: t)
      exact ih k (by simpa using hk)

theorem runeCount_ascii_cons (a : UInt8) (s : GoString) (ha : a.toNat < 0x80) :
    runeCount (a :: s) = runeCount s + 1 := by
  simp [runeCount, runeCountFrom, runeWidth, ha]

/-- A string of ASCII bytes has as many code points as bytes. -/
theorem runeCount_ascii (s : GoString) (h : ∀ c ∈ s, c.toNat < 0x80) :
    runeCount s = s.length := by
  induction s with
  | nil => rfl
  | cons c rest ih =>
    rw [runeCount_ascii_cons c rest (h c (List.mem_cons_self _ _)),
      ih (fun x hx => h x (List.mem_cons_of_mem _ hx))]
    rfl

theorem runeCount_replicate_ascii (n : Nat) (a : UInt8) (ha : a.toNat < 0x80) :
    runeCount (List.replicate n a) = n := by
  rw [runeCount_ascii _ (fun c hc => by rw [List.eq_of_mem_replicate hc]; exact ha)]
  simp

/-- The three-byte encoding of U+3042 repeated `n` times has `n` code points. -/
theorem runeCount_kana (n : Nat) :
    runeCount (List.replicate n (utf8 "あ")).flatten = n := by
  have e : utf8 "あ" = [227, 129, 130] := by decide
  rw [e]
  induction n with
  | zero => rfl
  | succ n ih =>
    have w3 : ∀ r : GoString, runeWidth 227 (129 :: 130 :: r) = 3 := by
      intro r
      simp [runeWidth, first, notCont, UInt8.size]
    show runeCountFrom 0 (227 :: 129 :: 130 :: (List.replicate n [227, 129, 130]).flatten) = n + 1
    simp only [runeCountFrom, w3]
    exact congrArg (· + 1) ih

theorem length_kana (n : Nat) : (List.replicate n (utf8 "あ")).flatten.length = 3 * n := by
  have e : utf8 "あ" = [227, 129, 130] := by decide
  rw [e]
  induction n with
  | zero => rfl
  | succ n ih => simp [List.replicate_succ, ih]; omega

/-- The code points of a tagged message: those of the tag, those of the message
and the three of `[`, `]` and the line feed. -/
theorem runeCount_tagged (tag msg : GoString) :
    runeCount (utf8 "[" ++ tag ++ utf8 "]\n" ++ msg) = runeCount tag + runeCount msg + 3 := by
  have e1 : utf8 "[" = [91] := by decide
  have e2 : utf8 "]\n" = [93, 10] := by decide
  rw [e1, e2]
  have h93 : (93 : UInt8).toNat < 0x80 := by decide
  have h10 : (10 : UInt8).toNat < 0x80 := by decide
  have h91 : (91 : UInt8).toNat < 0x80 := by decide
  have : [91] ++ tag ++ [93, 10] ++ msg = (91 : UInt8) :: (tag ++ 93 :: 10 :: msg) := by simp
  rw [this, runeCount_ascii_cons _ _ h91]
  unfold runeCount
  rw [runeCountFrom_append 93 _ h93 tag 0 (Nat.zero_le _)]
  have h3 := runeCount_ascii_cons 93 (10 :: msg) h93
  have h4 := runeCount_ascii_cons 10 msg h10
  unfold runeCount at h3 h4
  omega

/-! ## The shared form-send path -/

theorem sendFormData_reject (w : World) (t : LineNotifyToken) (msg : GoString) (form : Values)
    (s : State) (h : 1000 < runeCount msg) :
    sendFormData w t msg form s =
      (some (.new (utf8 "1000文字より多いメッセージは送信できません")), s) := by
  unfold sendFormData
  rw [if_pos h]

/-- A message within the limit is sent: the request built, the state left and
the error returned. -/
theorem sendFormData_accept (w : World) (t : LineNotifyToken) (msg : GoString) (form : Values)
    (s : State) (h : runeCount msg ≤ 1000) :
    ∃ req : Request,
      req.method = utf8 "POST" ∧ req.url = LINE_NOTIFY_URL ∧
      req.header = ((Header.mk []).Set (utf8 "Content-Type")
          (utf8 "application/x-www-form-urlencoded")).Set (utf8 "Authorization")
          (utf8 "Bearer " ++ t.Token) ∧
      req.body = .form ((form.Add (utf8 "message")
          (if t.Tag.length > 0 then utf8 "[" ++ t.Tag ++ utf8 "]\n" ++ msg else msg)).Add
          (utf8 "notificationDisabled") (formatBool s.notificationDisabled)) ∧
      (sendFormData w t msg form s).2 = { s with sent := s.sent ++ [req] } ∧
      (sendFormData w t msg form s).1 =
        (match w.clientDo req with
          | .error err => some (.foreign err)
          | .ok resp =>
            if resp.StatusCode = 200 then none
            else some (.new (utf8 "[status code: " ++ resp.Status ++
              utf8 "] Failed to send data"))) := by
  refine ⟨{ method := utf8 "POST"
            url := LINE_NOTIFY_URL
            header := ((Header.mk []).Set (utf8 "Content-Type")
              (utf8 "application/x-www-form-urlencoded")).Set (utf8 "Authorization")
              (utf8 "Bearer " ++ t.Token)
            body := .form ((form.Add (utf8 "message")
              (if t.Tag.length > 0 then utf8 "[" ++ t.Tag ++ utf8 "]\n" ++ msg else msg)).Add
              (utf8 "notificationDisabled") (formatBool s.notificationDisabled)) },
    rfl, rfl, rfl, rfl, ?_, ?_⟩
  · unfold sendFormData
    rw [if_neg (by omega)]
    dsimp only
    split
    · rfl
    · split <;> rfl
  · unfold sendFormData
    rw [if_neg (by omega)]
    dsimp only
    split
    · rfl
    · rename_i resp _
      by_cases h200 : resp.StatusCode = 200
      · simp [h200]
      · simp [h200]

/-! ## Stickers -/

theorem SendSticker_invalid_package (w : World) (t : LineNotifyToken) (msg : GoString)
    (packageId id : Int) (s : State) (h : packageId < 1 ∨ 4 < packageId) :
    SendSticker w t msg packageId id s =
      (some (.new (utf8 "スタンプのパッケージ識別子が不正です")), s) := by
  unfold SendSticker
  rw [if_pos (by omega)]

theorem SendSticker_invalid_id (w : World) (t : LineNotifyToken) (msg : GoString)
    (packageId id : Int) (s : State) (hp : 1 ≤ packageId ∧ packageId ≤ 4)
    (hi : ¬((1 ≤ id ∧ id ≤ 47) ∨ (100 ≤ id ∧ id ≤ 307) ∨ (401 ≤ id ∧ id ≤ 430) ∨
      (501 ≤ id ∧ id ≤ 527) ∨ (601 ≤ id ∧ id ≤ 632))) :
    SendSticker w t msg packageId id s =
      (some (.new (utf8 "スタンプの識別子が不正です")), s) := by
  unfold SendSticker
  rw [if_neg (by omega), if_pos hi]

theorem SendSticker_valid (w : World) (t : LineNotifyToken) (msg : GoString)
    (packageId id : Int) (s : State) (hp : 1 ≤ packageId ∧ packageId ≤ 4)
    (hi : (1 ≤ id ∧ id ≤ 47) ∨ (100 ≤ id ∧ id ≤ 307) ∨ (401 ≤ id ∧ id ≤ 430) ∨
      (501 ≤ id ∧ id ≤ 527) ∨ (601 ≤ id ∧ id ≤ 632)) :
    SendSticker w t msg packageId id s =
      sendFormData w t msg
        ((Values.empty.Add (utf8 "stickerPackageId") (formatInt packageId)).Add
          (utf8 "stickerId") (formatInt id)) s := by
  unfold SendSticker
  rw [if_neg (by omega), if_neg (not_not.mpr hi)]

/-- C1: `SendSticker` hands the message and the two sticker fields to `sendFormData`
exactly when `1 <= packageId <= 4` and `id` lies in one of the ranges [1,47],
[100,307], [401,430], [501,527], [601,632]; otherwise it returns one of its two
validation errors and leaves the state as it was, so no request is issued. Package
identifiers 0, 5 and -1 fail, sticker identifiers 48, 308, 633 and 999 fail and
1, 47, 307 and 632 pass with a valid package identifier. -/
theorem C1_SendSticker_validation (w : World) (t : LineNotifyToken) (msg : GoString)
    (packageId id : Int) (s : State) :
    (((1 ≤ packageId ∧ packageId ≤ 4) ∧
        ((1 ≤ id ∧ id ≤ 47) ∨ (100 ≤ id ∧ id ≤ 307) ∨ (401 ≤ id ∧ id ≤ 430) ∨
          (501 ≤ id ∧ id ≤ 527) ∨ (601 ≤ id ∧ id ≤ 632))) →
      SendSticker w t msg packageId id s =
        sendFormData w t msg
          ((Values.empty.Add (utf8 "stickerPackageId") (formatInt packageId)).Add
            (utf8 "stickerId") (formatInt id)) s) ∧
    (¬((1 ≤ packageId ∧ packageId ≤ 4) ∧
        ((1 ≤ id ∧ id ≤ 47) ∨ (100 ≤ id ∧ id ≤ 307) ∨ (401 ≤ id ∧ id ≤ 430) ∨
          (501 ≤ id ∧ id ≤ 527) ∨ (601 ≤ id ∧ id ≤ 632))) →
      (SendSticker w t msg packageId id s).2 = s ∧
      ((SendSticker w t msg packageId id s).1 =
          some (.new (utf8 "スタンプのパッケージ識別子が不正です")) ∨
        (SendSticker w t msg packageId id s).1 =
          some (.new (utf8 "スタンプの識別子が不正です")))) ∧
    ((packageId = 0 ∨ packageId = 5 ∨ packageId = -1) →
      SendSticker w t msg packageId id s =
        (some (.new (utf8 "スタンプのパッケージ識別子が不正です")), s)) ∧
    ((1 ≤ packageId ∧ packageId ≤ 4) → (id = 48 ∨ id = 308 ∨ id = 633 ∨ id = 999) →
      SendSticker w t msg packageId id s =
        (some (.new (utf8 "スタンプの識別子が不正です")), s)) ∧
    ((1 ≤ packageId ∧ packageId ≤ 4) → (id = 1 ∨ id = 47 ∨ id = 307 ∨ id = 632) →
      SendSticker w t msg packageId id s =
        sendFormData w t msg
          ((Values.empty.Add (utf8 "stickerPackageId") (formatInt packageId)).Add
            (utf8 "stickerId") (formatInt id)) s) := by
  refine ⟨fun h => SendSticker_valid w t msg packageId id s h.1 h.2, ?_, ?_, ?_, ?_⟩
  · intro h
    by_cases hp : 1 ≤ packageId ∧ packageId ≤ 4
    · have hi : ¬((1 ≤ id ∧ id ≤ 47) ∨ (100 ≤ id ∧ id ≤ 307) ∨ (401 ≤ id ∧ id ≤ 430) ∨
          (501 ≤ id ∧ id ≤ 527) ∨ (601 ≤ id ∧ id ≤ 632)) := fun hi => h ⟨hp, hi⟩
      rw [SendSticker_invalid_id w t msg packageId id s hp hi]
      exact ⟨rfl, Or.inr rfl⟩
    · rw [SendSticker_invalid_package w t msg packageId id s (by omega)]
      exact ⟨rfl, Or.inl rfl⟩
  · intro h
    exact SendSticker_invalid_package w t msg packageId id s (by omega)
  · intro hp hi
    exact SendSticker_invalid_id w t msg packageId id s hp (by omega)
  · intro hp hi
    exact SendSticker_valid w t msg packageId id s hp (by omega)

/-- C1 at a concrete input: `SendSticker("hi", 2, 999)` is refused with no
request sent, and `SendSticker("hi", 2, 47)` goes to `sendFormData`. -/
theorem C1_SendSticker_validation_witness :
    (¬(((1 : Int) ≤ 2 ∧ (2 : Int) ≤ 4) ∧
        (((1 : Int) ≤ 999 ∧ (999 : Int) ≤ 47) ∨ ((100 : Int) ≤ 999 ∧ (999 : Int) ≤ 307) ∨
          ((401 : Int) ≤ 999 ∧ (999 : Int) ≤ 430) ∨ ((501 : Int) ≤ 999 ∧ (999 : Int) ≤ 527) ∨
          ((601 : Int) ≤ 999 ∧ (999 : Int) ≤ 632)))) ∧
    (SendSticker sampleWorld sampleClient (utf8 "hi") 2 999 sampleState).2 = sampleState ∧
    (SendSticker sampleWorld sampleClient (utf8 "hi") 2 999 sampleState).2.sent = [] ∧
    SendSticker sampleWorld sampleClient (utf8 "hi") 2 47 sampleState =
      sendFormData sampleWorld sampleClient (utf8 "hi")
        ((Values.empty.Add (utf8 "stickerPackageId") (formatInt 2)).Add
          (utf8 "stickerId") (formatInt 47)) sampleState :=
  have h := C1_SendSticker_validation sampleWorld sampleClient (utf8 "hi") 2 999 sampleState
  have h47 := C1_SendSticker_validation sampleWorld sampleClient (utf8 "hi") 2 47 sampleState
  ⟨by decide, (h.2.1 (by decide)).1, by rw [(h.2.1 (by decide)).1]; rfl,
    h47.1 (by decide)⟩

/-! ## Image files -/

theorem SendImageFile_too_long (w : World) (t : LineNotifyToken) (msg imgpath : GoString)
    (s : State) (h : 1000 < runeCount msg) :
    SendImageFile w t msg imgpath s =
      (some (.new (utf8 "1000文字より多いメッセージは送信できません")), s) := by
  unfold SendImageFile
  rw [if_pos h]

theorem SendImageFile_empty_path (w : World) (t : LineNotifyToken) (msg : GoString)
    (s : State) (h : runeCount msg ≤ 1000) :
    SendImageFile w t msg [] s =
      (some (.new (utf8 "画像ファイルのPathを指定してください")), s) := by
  unfold SendImageFile
  rw [if_neg (by omega), if_pos (by simp)]

theorem SendImageFile_missing (w : World) (t : LineNotifyToken) (msg imgpath : GoString)
    (s : State) (h : runeCount msg ≤ 1000) (hpath : imgpath ≠ [])
    (hex : w.fileExists imgpath = false) :
    SendImageFile w t msg imgpath s =
      (some (.new (utf8 "画像ファイルが存在しません")), s) := by
  unfold SendImageFile
  have hlen : ¬ imgpath.length ≤ 0 := by
    have := List.length_pos.mpr hpath
    omega
  rw [if_neg (by omega), if_neg hlen, if_pos (by simp [hex])]

theorem SendImageFile_unsupported (w : World) (t : LineNotifyToken) (msg imgpath : GoString)
    (s : State) (h : runeCount msg ≤ 1000) (hpath : imgpath ≠ [])
    (hex : w.fileExists imgpath = true)
    (hjpeg : ¬(Ext imgpath = utf8 ".jpeg" ∨ Ext imgpath = utf8 ".jpg" ∨
      Ext imgpath = utf8 ".JPEG" ∨ Ext imgpath = utf8 ".JPG"))
    (hpng : ¬(Ext imgpath = utf8 ".png" ∨ Ext imgpath = utf8 ".PNG")) :
    SendImageFile w t msg imgpath s =
      (some (.new (utf8 "LINE Notifyでは[jpeg/png]形式の画像のみをサポートしています")), s) := by
  unfold SendImageFile
  have hlen : ¬ imgpath.length ≤ 0 := by
    have := List.length_pos.mpr hpath
    omega
  rw [if_neg (by omega), if_neg hlen, if_neg (by simp [hex])]
  dsimp only
  rw [if_neg hjpeg, if_neg hpng]

/-- A supported image that can be opened and read is sent: the request built,
the state left and the error returned. -/
theorem SendImageFile_accept (w : World) (t : LineNotifyToken) (msg imgpath : GoString)
    (s : State) (ctype content : GoString) (h : runeCount msg ≤ 1000) (hpath : imgpath ≠ [])
    (hex : w.fileExists imgpath = true)
    (hct : ((Ext imgpath = utf8 ".jpeg" ∨ Ext imgpath = utf8 ".jpg" ∨
          Ext imgpath = utf8 ".JPEG" ∨ Ext imgpath = utf8 ".JPG") ∧ ctype = utf8 "image/jpeg") ∨
      ((Ext imgpath = utf8 ".png" ∨ Ext imgpath = utf8 ".PNG") ∧ ctype = utf8 "image/png"))
    (hopen : w.osOpen imgpath = .ok (.ok content)) :
    ∃ req : Request,
      req.method = utf8 "POST" ∧ req.url = LINE_NOTIFY_URL ∧
      req.header = ((Header.mk []).Set (utf8 "Content-Type")
          (FormDataContentType w.boundary)).Set (utf8 "Authorization")
          (utf8 "Bearer " ++ t.Token) ∧
      req.body = .multipart w.boundary
        [fieldPart (utf8 "message")
            (if t.Tag.length > 0 then utf8 "[" ++ t.Tag ++ utf8 "]\n" ++ msg else msg),
          fieldPart (utf8 "notificationDisabled") (formatBool s.notificationDisabled),
          { header := ((Header.mk []).Set (utf8 "Content-Disposition")
              (utf8 "form-data; name=\"imageFile\"; filename=" ++ splitFile imgpath)).Set
              (utf8 "Content-Type") ctype
            data := content }] ∧
      (SendImageFile w t msg imgpath s).2 =
        { s with opened := s.opened ++ [imgpath], sent := s.sent ++ [req] } ∧
      (SendImageFile w t msg imgpath s).1 =
        (match w.clientDo req with
          | .error err => some (.foreign err)
          | .ok resp =>
            if resp.StatusCode = 200 then none
            else some (.new (utf8 "[status code: " ++ resp.Status ++
              utf8 "] Failed to send data"))) := by
  have hlen : ¬ imgpath.length ≤ 0 := by
    have := List.length_pos.mpr hpath
    omega
  have hpj : ¬(utf8 ".png" = utf8 ".jpeg" ∨ utf8 ".png" = utf8 ".jpg" ∨
      utf8 ".png" = utf8 ".JPEG" ∨ utf8 ".png" = utf8 ".JPG") := by decide
  have hPj : ¬(utf8 ".PNG" = utf8 ".jpeg" ∨ utf8 ".PNG" = utf8 ".jpg" ∨
      utf8 ".PNG" = utf8 ".JPEG" ∨ utf8 ".PNG" = utf8 ".JPG") := by decide
  refine ⟨{ method := utf8 "POST"
            url := LINE_NOTIFY_URL
            header := ((Header.mk []).Set (utf8 "Content-Type")
              (FormDataContentType w.boundary)).Set (utf8 "Authorization")
              (utf8 "Bearer " ++ t.Token)
            body := .multipart w.boundary
              [fieldPart (utf8 "message")
                  (if t.Tag.length > 0 then utf8 "[" ++ t.Tag ++ utf8 "]\n" ++ msg else msg),
                fieldPart (utf8 "notificationDisabled") (formatBool s.notificationDisabled),
                { header := ((Header.mk []).Set (utf8 "Content-Disposition")
                    (utf8 "form-data; name=\"imageFile\"; filename=" ++ splitFile imgpath)).Set
                    (utf8 "Content-Type") ctype
                  data := content }] },
    rfl, rfl, rfl, rfl, ?_, ?_⟩
  all_goals
    unfold SendImageFile
    rw [if_neg (by omega), if_neg hlen, if_neg (by simp [hex])]
    dsimp only
    rcases hct with ⟨hj, rfl⟩ | ⟨hp, rfl⟩
    · rw [if_pos hj]
      simp only [hopen, List.singleton_append, List.cons_append, List.nil_append]
      split
      · rfl
      · rename_i resp _
        by_cases h200 : resp.StatusCode = 200 <;> simp [h200]
    · have hnj : ¬(Ext imgpath = utf8 ".jpeg" ∨ Ext imgpath = utf8 ".jpg" ∨
          Ext imgpath = utf8 ".JPEG" ∨ Ext imgpath = utf8 ".JPG") := by
        rcases hp with hp | hp <;> rw [hp] <;> assumption
      rw [if_neg hnj, if_pos hp]
      simp only [hopen, List.singleton_append, List.cons_append, List.nil_append]
      split
      · rfl
      · rename_i resp _
        by_cases h200 : resp.StatusCode = 200 <;> simp [h200]


/-! ## The length check -/

theorem status_ne_length (st : GoString) :
    utf8 "[status code: " ++ st ++ utf8 "] Failed to send data" ≠
      utf8 "1000文字より多いメッセージは送信できません" := by
  have e1 : utf8 "[status code: " = 91 :: utf8 "status code: " := by decide
  have e2 : utf8 "1000文字より多いメッセージは送信できません" =
      49 :: utf8 "000文字より多いメッセージは送信できません" := by decide
  rw [e1, e2]
  intro h
  have h1 : (91 : UInt8) = 49 := by
    simpa using congrArg List.head? h
  exact absurd h1 (by decide)

theorem sendFormData_not_length (w : World) (t : LineNotifyToken) (msg : GoString)
    (form : Values) (s : State) (h : runeCount msg ≤ 1000) :
    (sendFormData w t msg form s).1 ≠
      some (.new (utf8 "1000文字より多いメッセージは送信できません")) := by
  obtain ⟨req, -, -, -, -, -, h1⟩ := sendFormData_accept w t msg form s h
  rw [h1]
  split
  · simp
  · split
    · simp
    · simpa using status_ne_length _

theorem SendImageFile_not_length (w : World) (t : LineNotifyToken) (msg imgpath : GoString)
    (s : State) (h : runeCount msg ≤ 1000) :
    (SendImageFile w t msg imgpath s).1 ≠
      some (.new (utf8 "1000文字より多いメッセージは送信できません")) := by
  have d1 : utf8 "画像ファイルのPathを指定してください" ≠
      utf8 "1000文字より多いメッセージは送信できません" := by decide
  have d2 : utf8 "画像ファイルが存在しません" ≠
      utf8 "1000文字より多いメッセージは送信できません" := by decide
  have d3 : utf8 "LINE Notifyでは[jpeg/png]形式の画像のみをサポートしています" ≠
      utf8 "1000文字より多いメッセージは送信できません" := by decide
  unfold SendImageFile
  rw [if_neg (by omega)]
  dsimp only
  repeat' split
  all_goals first
    | (simp [d1, d2, d3]; done)
    | simpa using status_ne_length _


theorem SendSticker_not_length (w : World) (t : LineNotifyToken) (msg : GoString)
    (packageId id : Int) (s : State) (h : runeCount msg ≤ 1000) :
    (SendSticker w t msg packageId id s).1 ≠
      some (.new (utf8 "1000文字より多いメッセージは送信できません")) := by
  have d1 : utf8 "スタンプのパッケージ識別子が不正です" ≠
      utf8 "1000文字より多いメッセージは送信できません" := by decide
  have d2 : utf8 "スタンプの識別子が不正です" ≠
      utf8 "1000文字より多いメッセージは送信できません" := by decide
  unfold SendSticker
  split
  · simp [d1]
  · split
    · simp [d2]
    · exact sendFormData_not_length w t msg _ s h

theorem sendFormData_sent_length (w : World) (t : LineNotifyToken) (msg : GoString)
    (form : Values) (s : State) (h : runeCount msg ≤ 1000) :
    (sendFormData w t msg form s).2.sent.length = s.sent.length + 1 := by
  obtain ⟨req, -, -, -, -, h2, -⟩ := sendFormData_accept w t msg form s h
  rw [h2]
  simp

/-- C2: a message of more than 1000 code points makes `SendMessage`,
`SendImageUrl`, `SendSticker` and `SendImageFile` return an error, whatever the
other arguments, the client and the flag, with the state unchanged, so before
any request; a message of exactly 1000 code points is not refused with the
length error by any of them, `SendMessage` and `SendImageUrl` then issue their
request, and such a message can be longer than 1000 bytes. -/
theorem C2_length_limit (w : World) (t : LineNotifyToken) (msg : GoString) (s : State) :
    (1000 < runeCount msg →
      SendMessage w t msg s =
        (some (.new (utf8 "1000文字より多いメッセージは送信できません")), s) ∧
      (∀ imgurl thumbUrl : GoString, SendImageUrl w t msg imgurl thumbUrl s =
        (some (.new (utf8 "1000文字より多いメッセージは送信できません")), s)) ∧
      (∀ packageId id : Int, ∃ err : GoError,
        SendSticker w t msg packageId id s = (some err, s)) ∧
      (∀ imgpath : GoString, SendImageFile w t msg imgpath s =
        (some (.new (utf8 "1000文字より多いメッセージは送信できません")), s))) ∧
    (runeCount msg = 1000 →
      (SendMessage w t msg s).1 ≠
        some (.new (utf8 "1000文字より多いメッセージは送信できません")) ∧
      (SendMessage w t msg s).2.sent.length = s.sent.length + 1 ∧
      (∀ imgurl thumbUrl : GoString,
        (SendImageUrl w t msg imgurl thumbUrl s).1 ≠
          some (.new (utf8 "1000文字より多いメッセージは送信できません")) ∧
        (SendImageUrl w t msg imgurl thumbUrl s).2.sent.length = s.sent.length + 1) ∧
      (∀ packageId id : Int, (SendSticker w t msg packageId id s).1 ≠
        some (.new (utf8 "1000文字より多いメッセージは送信できません"))) ∧
      (∀ imgpath : GoString, (SendImageFile w t msg imgpath s).1 ≠
        some (.new (utf8 "1000文字より多いメッセージは送信できません")))) ∧
    (∃ m : GoString, runeCount m = 1000 ∧ 1000 < m.length) := by
  refine ⟨fun h => ⟨?_, ?_, ?_, ?_⟩, fun h => ⟨?_, ?_, ?_, ?_, ?_⟩, ?_⟩
  · exact sendFormData_reject w t msg _ s h
  · intro imgurl thumbUrl
    exact sendFormData_reject w t msg _ s h
  · intro packageId id
    unfold SendSticker
    split
    · exact ⟨_, rfl⟩
    · split
      · exact ⟨_, rfl⟩
      · exact ⟨_, sendFormData_reject w t msg _ s h⟩
  · intro imgpath
    exact SendImageFile_too_long w t msg imgpath s h
  · exact sendFormData_not_length w t msg _ s (by omega)
  · exact sendFormData_sent_length w t msg _ s (by omega)
  · intro imgurl thumbUrl
    exact ⟨sendFormData_not_length w t msg _ s (by omega),
      sendFormData_sent_length w t msg _ s (by omega)⟩
  · intro packageId id
    exact SendSticker_not_length w t msg packageId id s (by omega)
  · intro imgpath
    exact SendImageFile_not_length w t msg imgpath s (by omega)
  · exact ⟨_, runeCount_kana 1000, by rw [length_kana]; omega⟩

/-- C2 at concrete inputs: 1001 letters `a` are refused by `SendMessage` and
`SendImageFile` with nothing sent, and 1000 kana, 3000 bytes long, are sent. -/
theorem C2_length_limit_witness :
    (1000 < runeCount (List.replicate 1001 (97 : UInt8)) ∧
      SendMessage sampleWorld sampleClient (List.replicate 1001 97) sampleState =
        (some (.new (utf8 "1000文字より多いメッセージは送信できません")), sampleState) ∧
      SendImageFile sampleWorld sampleClient (List.replicate 1001 97) (utf8 "/tmp/a.png")
          sampleState =
        (some (.new (utf8 "1000文字より多いメッセージは送信できません")), sampleState)) ∧
    (runeCount (List.replicate 1000 (utf8 "あ")).flatten = 1000 ∧
      (List.replicate 1000 (utf8 "あ")).flatten.length = 3000 ∧
      (SendMessage sampleWorld sampleClient (List.replicate 1000 (utf8 "あ")).flatten
        sampleState).2.sent.length = 1) :=
  have h1 : 1000 < runeCount (List.replicate 1001 (97 : UInt8)) := by
    rw [runeCount_replicate_ascii 1001 97 (by decide)]
    decide
  have h2 : runeCount (List.replicate 1000 (utf8 "あ")).flatten = 1000 := runeCount_kana 1000
  have a := (C2_length_limit sampleWorld sampleClient (List.replicate 1001 97) sampleState).1 h1
  have b := (C2_length_limit sampleWorld sampleClient
    (List.replicate 1000 (utf8 "あ")).flatten sampleState).2.1 h2
  ⟨⟨h1, a.1, a.2.2.2 _⟩, h2, length_kana 1000, b.2.1⟩


/-! ## The extension of the image file -/

theorem partHeader_get (v c : GoString) :
    (((Header.mk []).Set (utf8 "Content-Disposition") v).Set (utf8 "Content-Type") c).Get
        (utf8 "Content-Type") = c ∧
    (((Header.mk []).Set (utf8 "Content-Disposition") v).Set (utf8 "Content-Type") c).Get
        (utf8 "Content-Disposition") = v := by
  have d : utf8 "Content-Disposition" ≠ utf8 "Content-Type" := by decide
  simp [Header.Set, Header.Get, setEntry, d]

theorem sampleWorld_osOpen (path : GoString) (h : path ∈ sampleFiles) :
    sampleWorld.osOpen path = .ok (.ok [137, 80, 78, 71]) := by
  show (if path ∈ sampleFiles then _ else _) = _
  exact if_pos h

/-- C3, the counterexample: the existing files `/tmp/a.Jpg`, `/tmp/a.jPeG` and
`/tmp/a.Png` have the extensions `.Jpg`, `.jPeG` and `.Png`, and `SendImageFile`
refuses each with the unsupported-format error, sending nothing. -/
theorem C3_mixed_case_refused :
    (Ext (utf8 "/tmp/a.Jpg") = utf8 ".Jpg" ∧
      sampleWorld.fileExists (utf8 "/tmp/a.Jpg") = true ∧
      SendImageFile sampleWorld sampleClient (utf8 "hi") (utf8 "/tmp/a.Jpg") sampleState =
        (some (.new (utf8 "LINE Notifyでは[jpeg/png]形式の画像のみをサポートしています")),
          sampleState)) ∧
    (Ext (utf8 "/tmp/a.jPeG") = utf8 ".jPeG" ∧
      sampleWorld.fileExists (utf8 "/tmp/a.jPeG") = true ∧
      SendImageFile sampleWorld sampleClient (utf8 "hi") (utf8 "/tmp/a.jPeG") sampleState =
        (some (.new (utf8 "LINE Notifyでは[jpeg/png]形式の画像のみをサポートしています")),
          sampleState)) ∧
    (Ext (utf8 "/tmp/a.Png") = utf8 ".Png" ∧
      sampleWorld.fileExists (utf8 "/tmp/a.Png") = true ∧
      SendImageFile sampleWorld sampleClient (utf8 "hi") (utf8 "/tmp/a.Png") sampleState =
        (some (.new (utf8 "LINE Notifyでは[jpeg/png]形式の画像のみをサポートしています")),
          sampleState)) := by
  refine ⟨⟨by decide, by decide, ?_⟩, ⟨by decide, by decide, ?_⟩, ⟨by decide, by decide, ?_⟩⟩
  · exact SendImageFile_unsupported _ _ _ _ _ (by decide) (by decide) (by decide)
      (by decide) (by decide)
  · exact SendImageFile_unsupported _ _ _ _ _ (by decide) (by decide) (by decide)
      (by decide) (by decide)
  · exact SendImageFile_unsupported _ _ _ _ _ (by decide) (by decide) (by decide)
      (by decide) (by decide)

/-- C3, as amended: for a path that passes the earlier checks the extension is
compared exactly. When it is `.jpeg`, `.jpg`, `.JPEG` or `.JPG` the file is opened
and, once read, sent in a part `imageFile` of Content-Type `image/jpeg`; when it
is `.png` or `.PNG` likewise with `image/png`; every other extension, the
mixed-case `.Jpg`, `.jPeG` and `.Png` among them, is refused with the
unsupported-format error and the state unchanged. -/
theorem C3_content_type_by_extension (w : World) (t : LineNotifyToken)
    (msg imgpath : GoString) (s : State) (content : GoString)
    (h : runeCount msg ≤ 1000) (hpath : imgpath ≠ [])
    (hex : w.fileExists imgpath = true) :
    ((Ext imgpath = utf8 ".jpeg" ∨ Ext imgpath = utf8 ".jpg" ∨
        Ext imgpath = utf8 ".JPEG" ∨ Ext imgpath = utf8 ".JPG") →
      w.osOpen imgpath = .ok (.ok content) →
      ∃ (req : Request) (p0 p1 : Part) (hdr : Header),
        (SendImageFile w t msg imgpath s).2.sent = s.sent ++ [req] ∧
        req.body = .multipart w.boundary [p0, p1, ⟨hdr, content⟩] ∧
        hdr.Get (utf8 "Content-Disposition") =
          utf8 "form-data; name=\"imageFile\"; filename=" ++ splitFile imgpath ∧
        hdr.Get (utf8 "Content-Type") = utf8 "image/jpeg") ∧
    ((Ext imgpath = utf8 ".png" ∨ Ext imgpath = utf8 ".PNG") →
      w.osOpen imgpath = .ok (.ok content) →
      ∃ (req : Request) (p0 p1 : Part) (hdr : Header),
        (SendImageFile w t msg imgpath s).2.sent = s.sent ++ [req] ∧
        req.body = .multipart w.boundary [p0, p1, ⟨hdr, content⟩] ∧
        hdr.Get (utf8 "Content-Disposition") =
          utf8 "form-data; name=\"imageFile\"; filename=" ++ splitFile imgpath ∧
        hdr.Get (utf8 "Content-Type") = utf8 "image/png") ∧
    (¬(Ext imgpath = utf8 ".jpeg" ∨ Ext imgpath = utf8 ".jpg" ∨
        Ext imgpath = utf8 ".JPEG" ∨ Ext imgpath = utf8 ".JPG" ∨
        Ext imgpath = utf8 ".png" ∨ Ext imgpath = utf8 ".PNG") →
      SendImageFile w t msg imgpath s =
        (some (.new (utf8 "LINE Notifyでは[jpeg/png]形式の画像のみをサポートしています")), s)) ∧
    ((Ext imgpath = utf8 ".Jpg" ∨ Ext imgpath = utf8 ".jPeG" ∨ Ext imgpath = utf8 ".Png") →
      SendImageFile w t msg imgpath s =
        (some (.new (utf8 "LINE Notifyでは[jpeg/png]形式の画像のみをサポートしています")), s)) := by
  refine ⟨?_, ?_, ?_, ?_⟩
  · intro hj hopen
    obtain ⟨req, -, -, -, hb, hs, -⟩ :=
      SendImageFile_accept w t msg imgpath s (utf8 "image/jpeg") content h hpath hex
        (Or.inl ⟨hj, rfl⟩) hopen
    exact ⟨req, _, _, _, by rw [hs], hb, (partHeader_get _ _).2, (partHeader_get _ _).1⟩
  · intro hp hopen
    obtain ⟨req, -, -, -, hb, hs, -⟩ :=
      SendImageFile_accept w t msg imgpath s (utf8 "image/png") content h hpath hex
        (Or.inr ⟨hp, rfl⟩) hopen
    exact ⟨req, _, _, _, by rw [hs], hb, (partHeader_get _ _).2, (partHeader_get _ _).1⟩
  · intro hn
    exact SendImageFile_unsupported w t msg imgpath s h hpath hex
      (fun hj => hn (by tauto)) (fun hp => hn (by tauto))
  · intro hm
    refine SendImageFile_unsupported w t msg imgpath s h hpath hex ?_ ?_
    · rcases hm with hm | hm | hm <;> rw [hm] <;> decide
    · rcases hm with hm | hm | hm <;> rw [hm] <;> decide

/-- C3 as amended, at concrete inputs: `/tmp/b.JPG` is sent as `image/jpeg` and
`/tmp/a.gif` is refused. -/
theorem C3_content_type_by_extension_witness :
    (runeCount (utf8 "hi") ≤ 1000 ∧ utf8 "/tmp/b.JPG" ≠ [] ∧
      sampleWorld.fileExists (utf8 "/tmp/b.JPG") = true ∧
      Ext (utf8 "/tmp/b.JPG") = utf8 ".JPG" ∧
      sampleWorld.osOpen (utf8 "/tmp/b.JPG") = .ok (.ok [137, 80, 78, 71])) ∧
    (∃ (req : Request) (p0 p1 : Part) (hdr : Header),
      (SendImageFile sampleWorld sampleClient (utf8 "hi") (utf8 "/tmp/b.JPG")
        sampleState).2.sent = sampleState.sent ++ [req] ∧
      req.body = .multipart sampleWorld.boundary [p0, p1, ⟨hdr, [137, 80, 78, 71]⟩] ∧
      hdr.Get (utf8 "Content-Disposition") =
        utf8 "form-data; name=\"imageFile\"; filename=" ++ splitFile (utf8 "/tmp/b.JPG") ∧
      hdr.Get (utf8 "Content-Type") = utf8 "image/jpeg") ∧
    SendImageFile sampleWorld sampleClient (utf8 "hi") (utf8 "/tmp/a.gif") sampleState =
      (some (.new (utf8 "LINE Notifyでは[jpeg/png]形式の画像のみをサポートしています")),
        sampleState) :=
  ⟨⟨by decide, by decide, by decide, by decide, sampleWorld_osOpen _ (by decide)⟩,
    (C3_content_type_by_extension sampleWorld sampleClient (utf8 "hi") (utf8 "/tmp/b.JPG")
      sampleState [137, 80, 78, 71] (by decide) (by decide) (by decide)).1
      (by decide) (sampleWorld_osOpen _ (by decide)),
    (C3_content_type_by_extension sampleWorld sampleClient (utf8 "hi") (utf8 "/tmp/a.gif")
      sampleState [] (by decide) (by decide) (by decide)).2.2.1 (by decide)⟩


/-! ## The order of the checks of `SendImageFile` -/

/-- C8: `SendImageFile` returns at the first failing check, in the order message
length, empty path, missing file, each with a text of its own and with the state
unchanged: a message that is too long gives the length error whatever the path,
an empty path gives the empty-path error, a missing file gives the missing-file
error whatever its extension. An unsupported extension on an existing file is
refused only after these, and with the state unchanged: no file was opened and
no request issued. -/
theorem C8_check_order (w : World) (t : LineNotifyToken) (msg imgpath : GoString)
    (s : State) :
    (1000 < runeCount msg →
      SendImageFile w t msg imgpath s =
        (some (.new (utf8 "1000文字より多いメッセージは送信できません")), s)) ∧
    (runeCount msg ≤ 1000 → imgpath = [] →
      SendImageFile w t msg imgpath s =
        (some (.new (utf8 "画像ファイルのPathを指定してください")), s)) ∧
    (runeCount msg ≤ 1000 → imgpath ≠ [] → w.fileExists imgpath = false →
      SendImageFile w t msg imgpath s =
        (some (.new (utf8 "画像ファイルが存在しません")), s)) ∧
    (runeCount msg ≤ 1000 → imgpath ≠ [] → w.fileExists imgpath = true →
      ¬(Ext imgpath = utf8 ".jpeg" ∨ Ext imgpath = utf8 ".jpg" ∨
        Ext imgpath = utf8 ".JPEG" ∨ Ext imgpath = utf8 ".JPG" ∨
        Ext imgpath = utf8 ".png" ∨ Ext imgpath = utf8 ".PNG") →
      SendImageFile w t msg imgpath s =
        (some (.new (utf8 "LINE Notifyでは[jpeg/png]形式の画像のみをサポートしています")), s) ∧
      (SendImageFile w t msg imgpath s).2.opened = s.opened ∧
      (SendImageFile w t msg imgpath s).2.sent = s.sent) ∧
    [utf8 "1000文字より多いメッセージは送信できません",
      utf8 "画像ファイルのPathを指定してください",
      utf8 "画像ファイルが存在しません",
      utf8 "LINE Notifyでは[jpeg/png]形式の画像のみをサポートしています"].Nodup := by
  refine ⟨?_, ?_, ?_, ?_, by decide⟩
  · exact SendImageFile_too_long w t msg imgpath s
  · intro h hp
    subst hp
    exact SendImageFile_empty_path w t msg s h
  · exact SendImageFile_missing w t msg imgpath s
  · intro h hp hex hn
    have e := SendImageFile_unsupported w t msg imgpath s h hp hex
      (fun hj => hn (by tauto)) (fun hq => hn (by tauto))
    exact ⟨e, by rw [e], by rw [e]⟩

/-- C8 at concrete inputs: 1001 letters with an empty path give the length
error, an empty path gives the empty-path error, the missing `/tmp/none.gif`
gives the missing-file error, and the existing `/tmp/a.gif` is refused with
nothing opened or sent. -/
theorem C8_check_order_witness :
    (1000 < runeCount (List.replicate 1001 (97 : UInt8)) ∧
      SendImageFile sampleWorld sampleClient (List.replicate 1001 97) [] sampleState =
        (some (.new (utf8 "1000文字より多いメッセージは送信できません")), sampleState)) ∧
    (runeCount (utf8 "hi") ≤ 1000 ∧
      SendImageFile sampleWorld sampleClient (utf8 "hi") [] sampleState =
        (some (.new (utf8 "画像ファイルのPathを指定してください")), sampleState)) ∧
    (utf8 "/tmp/none.gif" ≠ [] ∧ sampleWorld.fileExists (utf8 "/tmp/none.gif") = false ∧
      SendImageFile sampleWorld sampleClient (utf8 "hi") (utf8 "/tmp/none.gif") sampleState =
        (some (.new (utf8 "画像ファイルが存在しません")), sampleState)) ∧
    (utf8 "/tmp/a.gif" ≠ [] ∧ sampleWorld.fileExists (utf8 "/tmp/a.gif") = true ∧
      SendImageFile sampleWorld sampleClient (utf8 "hi") (utf8 "/tmp/a.gif") sampleState =
        (some (.new (utf8 "LINE Notifyでは[jpeg/png]形式の画像のみをサポートしています")),
          sampleState) ∧
      (SendImageFile sampleWorld sampleClient (utf8 "hi") (utf8 "/tmp/a.gif")
        sampleState).2.opened = [] ∧
      (SendImageFile sampleWorld sampleClient (utf8 "hi") (utf8 "/tmp/a.gif")
        sampleState).2.sent = []) :=
  have h1 : 1000 < runeCount (List.replicate 1001 (97 : UInt8)) := by
    rw [runeCount_replicate_ascii 1001 97 (by decide)]
    decide
  have h2 : runeCount (utf8 "hi") ≤ 1000 := by decide
  have a := (C8_check_order sampleWorld sampleClient (utf8 "hi") (utf8 "/tmp/a.gif")
    sampleState).2.2.2.1 h2 (by decide) (by decide) (by decide)
  ⟨⟨h1, (C8_check_order sampleWorld sampleClient (List.replicate 1001 97) []
      sampleState).1 h1⟩,
    ⟨h2, (C8_check_order sampleWorld sampleClient (utf8 "hi") [] sampleState).2.1 h2 rfl⟩,
    ⟨by decide, by decide,
      (C8_check_order sampleWorld sampleClient (utf8 "hi") (utf8 "/tmp/none.gif")
        sampleState).2.2.1 h2 (by decide) (by decide)⟩,
    ⟨by decide, by decide, a.1, a.2.1, a.2.2⟩⟩

/-! ## Construction and the switches -/

/-- C6: whatever the flag was, after `NewNotifyClient(token)` or
`NewNotifyClientWithTag(token, tag)` it is false, nothing else of the state has
changed, and the client returned holds the given token and tag, the empty tag
for `NewNotifyClient`; so a message within the limit sent with any client after
`LineNotificationOff` and then a construction carries the single
`notificationDisabled` value `false`. -/
theorem C6_constructor_resets_flag (w : World) (old : LineNotifyToken)
    (token tag msg : GoString) (s : State) :
    (NewNotifyClientWithTag token tag s).2.notificationDisabled = false ∧
    (NewNotifyClient token s).2.notificationDisabled = false ∧
    (NewNotifyClientWithTag token tag s).1 = ⟨token, tag⟩ ∧
    (NewNotifyClient token s).1 = ⟨token, []⟩ ∧
    (NewNotifyClientWithTag token tag s).2 = { s with notificationDisabled := false } ∧
    (NewNotifyClient token s).2 = { s with notificationDisabled := false } ∧
    (runeCount msg ≤ 1000 →
      (∃ req : Request,
        (SendMessage w old msg (NewNotifyClient token (LineNotificationOff s)).2).2.sent =
          s.sent ++ [req] ∧
        req.body.field (utf8 "notificationDisabled") = [utf8 "false"]) ∧
      (∃ req : Request,
        (SendMessage w old msg
          (NewNotifyClientWithTag token tag (LineNotificationOff s)).2).2.sent =
          s.sent ++ [req] ∧
        req.body.field (utf8 "notificationDisabled") = [utf8 "false"])) := by
  refine ⟨rfl, rfl, rfl, rfl, rfl, rfl, ?_⟩
  intro h
  have d : utf8 "message" ≠ utf8 "notificationDisabled" := by decide
  constructor
  · obtain ⟨req, -, -, -, hb, hs, -⟩ :=
      sendFormData_accept w old msg Values.empty
        (NewNotifyClient token (LineNotificationOff s)).2 h
    refine ⟨req, ?_, ?_⟩
    · show (sendFormData w old msg Values.empty _).2.sent = _
      rw [hs]
      rfl
    · rw [hb]
      simp [Body.field, Values.lookup, Values.Add, Values.empty, addEntry, d, NewNotifyClient,
        NewNotifyClientWithTag, formatBool]
  · obtain ⟨req, -, -, -, hb, hs, -⟩ :=
      sendFormData_accept w old msg Values.empty
        (NewNotifyClientWithTag token tag (LineNotificationOff s)).2 h
    refine ⟨req, ?_, ?_⟩
    · show (sendFormData w old msg Values.empty _).2.sent = _
      rw [hs]
      rfl
    · rw [hb]
      simp [Body.field, Values.lookup, Values.Add, Values.empty, addEntry, d,
        NewNotifyClientWithTag, formatBool]

/-- C6 at a concrete input: after `LineNotificationOff` and a construction, the
old client sends `hi` with `notificationDisabled` equal to `false`. -/
theorem C6_constructor_resets_flag_witness :
    runeCount (utf8 "hi") ≤ 1000 ∧
    (LineNotificationOff sampleState).notificationDisabled = true ∧
    ∃ req : Request,
      (SendMessage sampleWorld taggedClient (utf8 "hi")
        (NewNotifyClient (utf8 "tok2") (LineNotificationOff sampleState)).2).2.sent =
        sampleState.sent ++ [req] ∧
      req.body.field (utf8 "notificationDisabled") = [utf8 "false"] :=
  ⟨by decide, rfl,
    ((C6_constructor_resets_flag sampleWorld taggedClient (utf8 "tok2") (utf8 "")
      (utf8 "hi") sampleState).2.2.2.2.2.2 (by decide)).1⟩


/-! ## The fields of a request -/

theorem find_addEntry_same (key value : GoString) (l : List (GoString × List GoString)) :
    (match (addEntry key value l).find? (fun e => e.1 = key) with
      | some e => e.2
      | none => []) =
    (match l.find? (fun e => e.1 = key) with
      | some e => e.2
      | none => []) ++ [value] := by
  induction l with
  | nil => simp [addEntry]
  | cons x rest ih =>
    obtain ⟨k, vs⟩ := x
    by_cases hk : k = key
    · simp [addEntry, hk]
    · simp [addEntry, hk, List.find?_cons]
      exact ih

theorem find_addEntry_other (key other value : GoString) (l : List (GoString × List GoString))
    (hne : key ≠ other) :
    (addEntry key value l).find? (fun e => e.1 = other) = l.find? (fun e => e.1 = other) := by
  induction l with
  | nil => simp [addEntry, hne]
  | cons x rest ih =>
    obtain ⟨k, vs⟩ := x
    by_cases hk : k = key
    · subst hk
      simp [addEntry, List.find?_cons, hne]
    · by_cases ho : k = other
      · subst ho
        rw [addEntry, if_neg hk]
        simp [List.find?_cons]
      · simp [addEntry, hk, List.find?_cons, ho]
        exact ih

/-- Adding a value to a key appends it to the values of that key. -/
theorem lookup_Add_same (v : Values) (key value : GoString) :
    (v.Add key value).lookup key = v.lookup key ++ [value] :=
  find_addEntry_same key value v.entries

/-- Adding a value to a key leaves the values of every other key alone. -/
theorem lookup_Add_other (v : Values) (key other value : GoString) (hne : key ≠ other) :
    (v.Add key value).lookup other = v.lookup other := by
  unfold Values.lookup Values.Add
  rw [find_addEntry_other key other value v.entries hne]

/-- The two fields added by `sendFormData` to a form that has neither. -/
theorem form_fields (form : Values) (m b : GoString)
    (hm : form.lookup (utf8 "message") = [])
    (hn : form.lookup (utf8 "notificationDisabled") = []) :
    (Body.form ((form.Add (utf8 "message") m).Add (utf8 "notificationDisabled") b)).field
        (utf8 "message") = [m] ∧
    (Body.form ((form.Add (utf8 "message") m).Add (utf8 "notificationDisabled") b)).field
        (utf8 "notificationDisabled") = [b] := by
  have d : utf8 "message" ≠ utf8 "notificationDisabled" := by decide
  have d2 : utf8 "notificationDisabled" ≠ utf8 "message" := by decide
  constructor
  · show ((form.Add (utf8 "message") m).Add (utf8 "notificationDisabled") b).lookup _ = _
    rw [lookup_Add_other _ _ _ _ d2, lookup_Add_same, hm]
    rfl
  · show ((form.Add (utf8 "message") m).Add (utf8 "notificationDisabled") b).lookup _ = _
    rw [lookup_Add_same, lookup_Add_other _ _ _ _ d, hn]
    rfl

/-- The two fields written by `SendImageFile` before the image part. -/
theorem multipart_fields (boundary m b v c content : GoString) :
    (Body.multipart boundary
        [fieldPart (utf8 "message") m, fieldPart (utf8 "notificationDisabled") b,
          { header := ((Header.mk []).Set (utf8 "Content-Disposition") v).Set
              (utf8 "Content-Type") c
            data := content }]).field (utf8 "message") = [m] ∧
    (Body.multipart boundary
        [fieldPart (utf8 "message") m, fieldPart (utf8 "notificationDisabled") b,
          { header := ((Header.mk []).Set (utf8 "Content-Disposition") v).Set
              (utf8 "Content-Type") c
            data := content }]).field (utf8 "notificationDisabled") = [b] := by
  have d : utf8 "Content-Disposition" ≠ utf8 "Content-Type" := by decide
  have e1 : (fieldPart (utf8 "notificationDisabled") []).header ≠
      (fieldPart (utf8 "message") []).header := by decide
  have e2 : (fieldPart (utf8 "message") []).header ≠
      (fieldPart (utf8 "notificationDisabled") []).header := by decide
  have hm : ∀ x : GoString, (fieldPart (utf8 "message") x).header =
      (fieldPart (utf8 "message") []).header := fun _ => rfl
  have hn : ∀ x : GoString, (fieldPart (utf8 "notificationDisabled") x).header =
      (fieldPart (utf8 "notificationDisabled") []).header := fun _ => rfl
  have himg : ∀ name : GoString,
      ((Header.mk []).Set (utf8 "Content-Disposition") v).Set (utf8 "Content-Type") c ≠
        (fieldPart name []).header := by
    intro name hh
    have := congrArg (fun x : Header => x.entries.length) hh
    simp [Header.Set, setEntry, d, fieldPart] at this
  constructor
  · simp [Body.field, List.filter, hm, hn, e1, himg]
    rfl
  · simp [Body.field, List.filter, hm, hn, e2, himg]
    rfl

theorem header_get_authorization (c a : GoString) :
    (((Header.mk []).Set (utf8 "Content-Type") c).Set (utf8 "Authorization") a).Get
        (utf8 "Authorization") = a ∧
    (((Header.mk []).Set (utf8 "Content-Type") c).Set (utf8 "Authorization") a).Get
        (utf8 "Content-Type") = c := by
  have d : utf8 "Content-Type" ≠ utf8 "Authorization" := by decide
  simp [Header.Set, Header.Get, setEntry, d]

/-- What `sendFormData` sends for a message within the limit and a form that has
neither a `message` nor a `notificationDisabled` field yet. -/
theorem sendFormData_fields (w : World) (t : LineNotifyToken) (msg : GoString) (form : Values)
    (s : State) (h : runeCount msg ≤ 1000)
    (hm : form.lookup (utf8 "message") = [])
    (hn : form.lookup (utf8 "notificationDisabled") = []) :
    ∃ req : Request,
      (sendFormData w t msg form s).2.sent = s.sent ++ [req] ∧
      req.method = utf8 "POST" ∧ req.url = LINE_NOTIFY_URL ∧
      req.header.Get (utf8 "Authorization") = utf8 "Bearer " ++ t.Token ∧
      req.body.field (utf8 "message") =
        [if t.Tag.length > 0 then utf8 "[" ++ t.Tag ++ utf8 "]\n" ++ msg else msg] ∧
      req.body.field (utf8 "notificationDisabled") = [formatBool s.notificationDisabled] ∧
      (sendFormData w t msg form s).1 =
        (match w.clientDo req with
          | .error err => some (.foreign err)
          | .ok resp =>
            if resp.StatusCode = 200 then none
            else some (.new (utf8 "[status code: " ++ resp.Status ++
              utf8 "] Failed to send data"))) := by
  obtain ⟨req, h1, h2, h3, h4, h5, h6⟩ := sendFormData_accept w t msg form s h
  refine ⟨req, by rw [h5], h1, h2, ?_, ?_, ?_, h6⟩
  · rw [h3]
    exact (header_get_authorization _ _).1
  · rw [h4]
    exact (form_fields form _ _ hm hn).1
  · rw [h4]
    exact (form_fields form _ _ hm hn).2

/-- What each of the four send methods sends for input that passes its checks:
one request, a POST to the endpoint with the bearer token, the message with the
tag put before it, the flag as text, and the error drawn from the response. -/
theorem send_valid (w : World) (t : LineNotifyToken) (msg : GoString) (s : State)
    (out : Option GoError × State) (h : runeCount msg ≤ 1000)
    (hout : out = SendMessage w t msg s ∨
      (∃ imgurl thumbUrl : GoString, out = SendImageUrl w t msg imgurl thumbUrl s) ∨
      (∃ packageId id : Int, (1 ≤ packageId ∧ packageId ≤ 4) ∧
        ((1 ≤ id ∧ id ≤ 47) ∨ (100 ≤ id ∧ id ≤ 307) ∨ (401 ≤ id ∧ id ≤ 430) ∨
          (501 ≤ id ∧ id ≤ 527) ∨ (601 ≤ id ∧ id ≤ 632)) ∧
        out = SendSticker w t msg packageId id s) ∨
      (∃ imgpath content : GoString, imgpath ≠ [] ∧ w.fileExists imgpath = true ∧
        (Ext imgpath = utf8 ".jpeg" ∨ Ext imgpath = utf8 ".jpg" ∨
          Ext imgpath = utf8 ".JPEG" ∨ Ext imgpath = utf8 ".JPG" ∨
          Ext imgpath = utf8 ".png" ∨ Ext imgpath = utf8 ".PNG") ∧
        w.osOpen imgpath = .ok (.ok content) ∧
        out = SendImageFile w t msg imgpath s)) :
    ∃ req : Request,
      out.2.sent = s.sent ++ [req] ∧
      req.method = utf8 "POST" ∧ req.url = LINE_NOTIFY_URL ∧
      req.header.Get (utf8 "Authorization") = utf8 "Bearer " ++ t.Token ∧
      req.body.field (utf8 "message") =
        [if t.Tag.length > 0 then utf8 "[" ++ t.Tag ++ utf8 "]\n" ++ msg else msg] ∧
      req.body.field (utf8 "notificationDisabled") = [formatBool s.notificationDisabled] ∧
      out.1 =
        (match w.clientDo req with
          | .error err => some (.foreign err)
          | .ok resp =>
            if resp.StatusCode = 200 then none
            else some (.new (utf8 "[status code: " ++ resp.Status ++
              utf8 "] Failed to send data"))) := by
  rcases hout with rfl | ⟨imgurl, thumbUrl, rfl⟩ | ⟨packageId, id, hp, hi, rfl⟩ |
    ⟨imgpath, content, hpath, hex, hext, hopen, rfl⟩
  · exact sendFormData_fields w t msg Values.empty s h rfl rfl
  · refine sendFormData_fields w t msg _ s h ?_ ?_
    · rw [lookup_Add_other _ _ _ _ (by decide), lookup_Add_other _ _ _ _ (by decide)]
      rfl
    · rw [lookup_Add_other _ _ _ _ (by decide), lookup_Add_other _ _ _ _ (by decide)]
      rfl
  · rw [SendSticker_valid w t msg packageId id s hp hi]
    refine sendFormData_fields w t msg _ s h ?_ ?_
    · rw [lookup_Add_other _ _ _ _ (by decide), lookup_Add_other _ _ _ _ (by decide)]
      rfl
    · rw [lookup_Add_other _ _ _ _ (by decide), lookup_Add_other _ _ _ _ (by decide)]
      rfl
  · have hct : ∃ ctype : GoString,
        ((Ext imgpath = utf8 ".jpeg" ∨ Ext imgpath = utf8 ".jpg" ∨
          Ext imgpath = utf8 ".JPEG" ∨ Ext imgpath = utf8 ".JPG") ∧
          ctype = utf8 "image/jpeg") ∨
        ((Ext imgpath = utf8 ".png" ∨ Ext imgpath = utf8 ".PNG") ∧
          ctype = utf8 "image/png") := by
      rcases hext with e | e | e | e | e | e
      · exact ⟨_, Or.inl ⟨Or.inl e, rfl⟩⟩
      · exact ⟨_, Or.inl ⟨Or.inr (Or.inl e), rfl⟩⟩
      · exact ⟨_, Or.inl ⟨Or.inr (Or.inr (Or.inl e)), rfl⟩⟩
      · exact ⟨_, Or.inl ⟨Or.inr (Or.inr (Or.inr e)), rfl⟩⟩
      · exact ⟨_, Or.inr ⟨Or.inl e, rfl⟩⟩
      · exact ⟨_, Or.inr ⟨Or.inr e, rfl⟩⟩
    obtain ⟨ctype, hct⟩ := hct
    obtain ⟨req, h1, h2, h3, h4, h5, h6⟩ :=
      SendImageFile_accept w t msg imgpath s ctype content h hpath hex hct hopen
    refine ⟨req, by rw [h5], h1, h2, ?_, ?_, ?_, h6⟩
    · rw [h3]
      exact (header_get_authorization _ _).1
    · rw [h4]
      exact (multipart_fields _ _ _ _ _ _).1
    · rw [h4]
      exact (multipart_fields _ _ _ _ _ _).2


/-! ## The tag, the flag and the response -/

theorem tag_cases (tag a b : GoString) :
    (if tag.length > 0 then a else b) = if tag = [] then b else a := by
  cases tag <;> simp

/-- C4: for input that passes the checks, the request of each send method
carries exactly one `message` value: the message itself for a client without
tag, and `[` + tag + `]`, a line feed and the message for a client with a tag. -/
theorem C4_tag_before_message (w : World) (t : LineNotifyToken) (msg : GoString) (s : State)
    (out : Option GoError × State) (expected : GoString) (h : runeCount msg ≤ 1000)
    (hexp : expected = if t.Tag = [] then msg else utf8 "[" ++ t.Tag ++ utf8 "]\n" ++ msg)
    (hout : out = SendMessage w t msg s ∨
      (∃ imgurl thumbUrl : GoString, out = SendImageUrl w t msg imgurl thumbUrl s) ∨
      (∃ packageId id : Int, (1 ≤ packageId ∧ packageId ≤ 4) ∧
        ((1 ≤ id ∧ id ≤ 47) ∨ (100 ≤ id ∧ id ≤ 307) ∨ (401 ≤ id ∧ id ≤ 430) ∨
          (501 ≤ id ∧ id ≤ 527) ∨ (601 ≤ id ∧ id ≤ 632)) ∧
        out = SendSticker w t msg packageId id s) ∨
      (∃ imgpath content : GoString, imgpath ≠ [] ∧ w.fileExists imgpath = true ∧
        (Ext imgpath = utf8 ".jpeg" ∨ Ext imgpath = utf8 ".jpg" ∨
          Ext imgpath = utf8 ".JPEG" ∨ Ext imgpath = utf8 ".JPG" ∨
          Ext imgpath = utf8 ".png" ∨ Ext imgpath = utf8 ".PNG") ∧
        w.osOpen imgpath = .ok (.ok content) ∧
        out = SendImageFile w t msg imgpath s)) :
    ∃ req : Request,
      out.2.sent = s.sent ++ [req] ∧ req.body.field (utf8 "message") = [expected] := by
  obtain ⟨req, h1, -, -, -, h5, -, -⟩ := send_valid w t msg s out h hout
  refine ⟨req, h1, ?_⟩
  rw [h5, hexp, tag_cases]

/-- C4 at concrete inputs: the client tagged `ops` sends `hi` with the file
`/tmp/a.png` as the message `[ops]`, line feed, `hi`, and the client without tag
sends `hi` as it is. -/
theorem C4_tag_before_message_witness :
    (runeCount (utf8 "hi") ≤ 1000 ∧
      ∃ req : Request,
        (SendImageFile sampleWorld taggedClient (utf8 "hi") (utf8 "/tmp/a.png")
          sampleState).2.sent = sampleState.sent ++ [req] ∧
        req.body.field (utf8 "message") = [utf8 "[ops]\nhi"]) ∧
    (∃ req : Request,
      (SendMessage sampleWorld sampleClient (utf8 "hi") sampleState).2.sent =
        sampleState.sent ++ [req] ∧
      req.body.field (utf8 "message") = [utf8 "hi"]) :=
  ⟨⟨by decide,
    C4_tag_before_message sampleWorld taggedClient (utf8 "hi") sampleState _ (utf8 "[ops]\nhi")
      (by decide) (by decide)
      (Or.inr (Or.inr (Or.inr ⟨utf8 "/tmp/a.png", [137, 80, 78, 71], by decide, by decide,
        by decide, sampleWorld_osOpen _ (by decide), rfl⟩)))⟩,
    C4_tag_before_message sampleWorld sampleClient (utf8 "hi") sampleState _ (utf8 "hi")
      (by decide) (by decide) (Or.inl rfl)⟩

/-- C5: for input that passes the checks, the request of each send method
carries exactly one `notificationDisabled` value, the text `true` or `false` of
the flag in the state the method is called in: `true` when the call follows
`LineNotificationOff`, `false` when it follows `LineNotificationOn`, whatever
the state before the switch and whichever the client. -/
theorem C5_flag_at_send_time (w : World) (t : LineNotifyToken) (msg : GoString)
    (s st : State) (b : GoString) (out : Option GoError × State)
    (h : runeCount msg ≤ 1000)
    (hst : (st = LineNotificationOff s ∧ b = utf8 "true") ∨
      (st = LineNotificationOn s ∧ b = utf8 "false") ∨
      (st = s ∧ b = formatBool s.notificationDisabled))
    (hout : out = SendMessage w t msg st ∨
      (∃ imgurl thumbUrl : GoString, out = SendImageUrl w t msg imgurl thumbUrl st) ∨
      (∃ packageId id : Int, (1 ≤ packageId ∧ packageId ≤ 4) ∧
        ((1 ≤ id ∧ id ≤ 47) ∨ (100 ≤ id ∧ id ≤ 307) ∨ (401 ≤ id ∧ id ≤ 430) ∨
          (501 ≤ id ∧ id ≤ 527) ∨ (601 ≤ id ∧ id ≤ 632)) ∧
        out = SendSticker w t msg packageId id st) ∨
      (∃ imgpath content : GoString, imgpath ≠ [] ∧ w.fileExists imgpath = true ∧
        (Ext imgpath = utf8 ".jpeg" ∨ Ext imgpath = utf8 ".jpg" ∨
          Ext imgpath = utf8 ".JPEG" ∨ Ext imgpath = utf8 ".JPG" ∨
          Ext imgpath = utf8 ".png" ∨ Ext imgpath = utf8 ".PNG") ∧
        w.osOpen imgpath = .ok (.ok content) ∧
        out = SendImageFile w t msg imgpath st)) :
    ∃ req : Request,
      out.2.sent = s.sent ++ [req] ∧
      req.body.field (utf8 "notificationDisabled") = [b] ∧
      b = formatBool st.notificationDisabled ∧
      (st.notificationDisabled = true → b = utf8 "true") ∧
      (st.notificationDisabled = false → b = utf8 "false") := by
  obtain ⟨req, h1, -, -, -, -, h6, -⟩ := send_valid w t msg st out h hout
  have hb : b = formatBool st.notificationDisabled ∧ st.sent = s.sent := by
    rcases hst with ⟨rfl, rfl⟩ | ⟨rfl, rfl⟩ | ⟨rfl, rfl⟩
    · exact ⟨rfl, rfl⟩
    · exact ⟨rfl, rfl⟩
    · exact ⟨rfl, rfl⟩
  refine ⟨req, by rw [h1, hb.2], by rw [h6, hb.1], hb.1, ?_, ?_⟩
  · intro hf
    rw [hb.1, hf]
    rfl
  · intro hf
    rw [hb.1, hf]
    rfl

/-- C5 at a concrete input: after `LineNotificationOff` the waiting client sends
`hi` with the value `true`, and after `LineNotificationOn` again with `false`. -/
theorem C5_flag_at_send_time_witness :
    runeCount (utf8 "hi") ≤ 1000 ∧
    (∃ req : Request,
      (SendMessage sampleWorld sampleClient (utf8 "hi")
        (LineNotificationOff sampleState)).2.sent = sampleState.sent ++ [req] ∧
      req.body.field (utf8 "notificationDisabled") = [utf8 "true"]) ∧
    (∃ req : Request,
      (SendMessage sampleWorld sampleClient (utf8 "hi")
        (LineNotificationOn (LineNotificationOff sampleState))).2.sent =
        (LineNotificationOff sampleState).sent ++ [req] ∧
      req.body.field (utf8 "notificationDisabled") = [utf8 "false"]) :=
  have a := C5_flag_at_send_time sampleWorld sampleClient (utf8 "hi") sampleState
    (LineNotificationOff sampleState) (utf8 "true") _ (by decide) (Or.inl ⟨rfl, rfl⟩)
    (Or.inl rfl)
  have b := C5_flag_at_send_time sampleWorld sampleClient (utf8 "hi")
    (LineNotificationOff sampleState) (LineNotificationOn (LineNotificationOff sampleState))
    (utf8 "false") _ (by decide) (Or.inr (Or.inl ⟨rfl, rfl⟩)) (Or.inl rfl)
  ⟨by decide, a.imp (fun _ hr => ⟨hr.1, hr.2.1⟩), b.imp (fun _ hr => ⟨hr.1, hr.2.1⟩)⟩

/-- C7: for input that passes the checks each send method issues one request,
and its result follows what `client.Do` gives for that request: on a response,
`nil` exactly when the status code is 200, and otherwise the error with the text
`[status code: ` + status + `] Failed to send data`, which holds the status
line and reads `[status code: 401 Unauthorized] Failed to send data` for the
status `401 Unauthorized`; on an error of the transport, that very error. -/
theorem C7_response_to_result (w : World) (t : LineNotifyToken) (msg : GoString) (s : State)
    (out : Option GoError × State) (h : runeCount msg ≤ 1000)
    (hout : out = SendMessage w t msg s ∨
      (∃ imgurl thumbUrl : GoString, out = SendImageUrl w t msg imgurl thumbUrl s) ∨
      (∃ packageId id : Int, (1 ≤ packageId ∧ packageId ≤ 4) ∧
        ((1 ≤ id ∧ id ≤ 47) ∨ (100 ≤ id ∧ id ≤ 307) ∨ (401 ≤ id ∧ id ≤ 430) ∨
          (501 ≤ id ∧ id ≤ 527) ∨ (601 ≤ id ∧ id ≤ 632)) ∧
        out = SendSticker w t msg packageId id s) ∨
      (∃ imgpath content : GoString, imgpath ≠ [] ∧ w.fileExists imgpath = true ∧
        (Ext imgpath = utf8 ".jpeg" ∨ Ext imgpath = utf8 ".jpg" ∨
          Ext imgpath = utf8 ".JPEG" ∨ Ext imgpath = utf8 ".JPG" ∨
          Ext imgpath = utf8 ".png" ∨ Ext imgpath = utf8 ".PNG") ∧
        w.osOpen imgpath = .ok (.ok content) ∧
        out = SendImageFile w t msg imgpath s)) :
    ∃ req : Request,
      out.2.sent = s.sent ++ [req] ∧
      (∀ resp : Response, w.clientDo req = .ok resp →
        (out.1 = none ↔ resp.StatusCode = 200) ∧
        (resp.StatusCode ≠ 200 →
          out.1 = some (.new (utf8 "[status code: " ++ resp.Status ++
            utf8 "] Failed to send data")) ∧
          (∃ err : GoError, out.1 = some err ∧ resp.Status <:+: err.Error) ∧
          (resp.Status = utf8 "401 Unauthorized" →
            out.1 = some (.new
              (utf8 "[status code: 401 Unauthorized] Failed to send data"))))) ∧
      (∀ err : ForeignError, w.clientDo req = .error err → out.1 = some (.foreign err)) := by
  obtain ⟨req, h1, -, -, -, -, -, h7⟩ := send_valid w t msg s out h hout
  refine ⟨req, h1, ?_, ?_⟩
  · intro resp hresp
    rw [hresp] at h7
    by_cases h200 : resp.StatusCode = 200
    · simp only [h200, if_true] at h7
      exact ⟨⟨fun _ => h200, fun _ => h7⟩, fun hne => absurd h200 hne⟩
    · simp only [h200, if_false] at h7
      refine ⟨⟨fun hn => ?_, fun hc => absurd hc h200⟩, fun _ => ⟨h7, ⟨_, h7, ?_⟩, ?_⟩⟩
      · rw [h7] at hn
        exact absurd hn (by simp)
      · exact ⟨utf8 "[status code: ", utf8 "] Failed to send data", rfl⟩
      · intro hs
        rw [h7, hs]
        decide
  · intro err herr
    rw [herr] at h7
    exact h7

/-- C7 at concrete inputs: against the endpoint that answers `401 Unauthorized`
the message `hello` fails with the text carrying that status, and against the
endpoint that answers 200 it succeeds. -/
theorem C7_response_to_result_witness :
    runeCount (utf8 "hello") ≤ 1000 ∧
    (SendMessage unauthorizedWorld sampleClient (utf8 "hello") sampleState).1 =
      some (.new (utf8 "[status code: 401 Unauthorized] Failed to send data")) ∧
    (SendMessage sampleWorld sampleClient (utf8 "hello") sampleState).1 = none :=
  ⟨by decide,
    (C7_response_to_result unauthorizedWorld sampleClient (utf8 "hello") sampleState _
      (by decide) (Or.inl rfl)).elim
      (fun req hr => ((hr.2.1 ⟨401, utf8 "401 Unauthorized"⟩ rfl).2 (by decide)).2.2 rfl),
    (C7_response_to_result sampleWorld sampleClient (utf8 "hello") sampleState _
      (by decide) (Or.inl rfl)).elim
      (fun req hr => (hr.2.1 ⟨200, utf8 "200 OK"⟩ rfl).1.mpr rfl)⟩


/-! ## The URL-encoded body -/

/-- Letters and digits are not escaped by `url.QueryEscape`. -/
theorem QueryEscape_alnum (msg : GoString)
    (h : ∀ c ∈ msg, (48 ≤ c.toNat ∧ c.toNat ≤ 57) ∨ (65 ≤ c.toNat ∧ c.toNat ≤ 90) ∨
      (97 ≤ c.toNat ∧ c.toNat ≤ 122)) :
    QueryEscape msg = msg := by
  induction msg with
  | nil => rfl
  | cons c rest ih =>
    have hc := h c (List.mem_cons_self _ _)
    have hs : shouldEscape c = false := by
      unfold shouldEscape
      rcases hc with ⟨h1, h2⟩ | ⟨h1, h2⟩ | ⟨h1, h2⟩ <;> simp [h1, h2]
    rw [QueryEscape, hs, ih (fun x hx => h x (List.mem_cons_of_mem _ hx))]
    rfl

/-- The encoding of a form that holds one message and the flag. -/
theorem Encode_message_flag (msg b : GoString) (hmsg : QueryEscape msg = msg)
    (hb : QueryEscape b = b) :
    (Values.mk [(utf8 "message", [msg]), (utf8 "notificationDisabled", [b])]).Encode =
      utf8 "message=" ++ msg ++ utf8 "&notificationDisabled=" ++ b := by
  have hle : strLe (utf8 "message") (utf8 "notificationDisabled") = true := by decide
  have hk1 : QueryEscape (utf8 "message") = utf8 "message" := by decide
  have hk2 : QueryEscape (utf8 "notificationDisabled") = utf8 "notificationDisabled" := by
    decide
  have e1 : utf8 "message=" = utf8 "message" ++ [61] := by decide
  have e2 : utf8 "&notificationDisabled=" = 38 :: (utf8 "notificationDisabled" ++ [61]) := by
    decide
  have hpos : (utf8 "message" ++ [61] ++ msg).length > 0 := by simp
  simp only [Values.Encode, sortByKey, insertByKey, hle, if_true, encodeEntries, encodeKey,
    hk1, hk2, hmsg, hb, List.length_nil, gt_iff_lt, lt_self_iff_false, if_false,
    List.nil_append]
  rw [if_pos hpos, e1, e2]
  simp

theorem formatBool_escape (f : Bool) : QueryEscape (formatBool f) = formatBool f := by
  cases f <;> decide

theorem message_flag_form (m b : GoString) :
    (Values.empty.Add (utf8 "message") m).Add (utf8 "notificationDisabled") b =
      Values.mk [(utf8 "message", [m]), (utf8 "notificationDisabled", [b])] := by
  have d : utf8 "message" ≠ utf8 "notificationDisabled" := by decide
  simp [Values.Add, Values.empty, addEntry, d]

/-- C9: the client with token `tok` and no tag, with the flag false, sends
`hello` as one POST to `https://notify-api.line.me/api/notify` with the headers
`Authorization: Bearer tok` and `Content-Type:
application/x-www-form-urlencoded` and the body
`message=hello&notificationDisabled=false`, and returns `nil` on status 200. For
any client without tag and any message of at most 1000 letters and digits the
form holds the two fields `message` and `notificationDisabled` and nothing else,
and the body is `message=` + message + `&notificationDisabled=` + the flag as
text. -/
theorem C9_SendMessage_request (w : World) (t : LineNotifyToken) (msg : GoString) (s : State) :
    (s.notificationDisabled = false →
      ∃ req : Request,
        (SendMessage w ⟨utf8 "tok", utf8 ""⟩ (utf8 "hello") s).2.sent = s.sent ++ [req] ∧
        req.method = utf8 "POST" ∧
        req.url = utf8 "https://notify-api.line.me/api/notify" ∧
        req.header.Get (utf8 "Authorization") = utf8 "Bearer tok" ∧
        req.header.Get (utf8 "Content-Type") = utf8 "application/x-www-form-urlencoded" ∧
        req.body.wire = utf8 "message=hello&notificationDisabled=false" ∧
        (∀ resp : Response, w.clientDo req = .ok resp → resp.StatusCode = 200 →
          (SendMessage w ⟨utf8 "tok", utf8 ""⟩ (utf8 "hello") s).1 = none)) ∧
    (t.Tag = [] → msg.length ≤ 1000 →
      (∀ c ∈ msg, (48 ≤ c.toNat ∧ c.toNat ≤ 57) ∨ (65 ≤ c.toNat ∧ c.toNat ≤ 90) ∨
        (97 ≤ c.toNat ∧ c.toNat ≤ 122)) →
      ∃ req : Request,
        (SendMessage w t msg s).2.sent = s.sent ++ [req] ∧
        req.body = .form (Values.mk [(utf8 "message", [msg]),
          (utf8 "notificationDisabled", [formatBool s.notificationDisabled])]) ∧
        req.body.wire = utf8 "message=" ++ msg ++ utf8 "&notificationDisabled=" ++
          formatBool s.notificationDisabled) := by
  have general : ∀ (t : LineNotifyToken) (msg : GoString), t.Tag = [] → msg.length ≤ 1000 →
      (∀ c ∈ msg, (48 ≤ c.toNat ∧ c.toNat ≤ 57) ∨ (65 ≤ c.toNat ∧ c.toNat ≤ 90) ∨
        (97 ≤ c.toNat ∧ c.toNat ≤ 122)) →
      ∃ req : Request,
        (SendMessage w t msg s).2.sent = s.sent ++ [req] ∧
        req.method = utf8 "POST" ∧ req.url = LINE_NOTIFY_URL ∧
        req.header = ((Header.mk []).Set (utf8 "Content-Type")
          (utf8 "application/x-www-form-urlencoded")).Set (utf8 "Authorization")
          (utf8 "Bearer " ++ t.Token) ∧
        req.body = .form (Values.mk [(utf8 "message", [msg]),
          (utf8 "notificationDisabled", [formatBool s.notificationDisabled])]) ∧
        req.body.wire = utf8 "message=" ++ msg ++ utf8 "&notificationDisabled=" ++
          formatBool s.notificationDisabled ∧
        (SendMessage w t msg s).1 =
          (match w.clientDo req with
            | .error err => some (.foreign err)
            | .ok resp =>
              if resp.StatusCode = 200 then none
              else some (.new (utf8 "[status code: " ++ resp.Status ++
                utf8 "] Failed to send data"))) := by
    intro t msg htag hlen hal
    have hrc : runeCount msg ≤ 1000 := by
      rw [runeCount_ascii msg (fun c hc => by have := hal c hc; omega)]
      exact hlen
    obtain ⟨req, h1, h2, h3, h4, h5, h6⟩ := sendFormData_accept w t msg Values.empty s hrc
    have hb : req.body = .form (Values.mk [(utf8 "message", [msg]),
        (utf8 "notificationDisabled", [formatBool s.notificationDisabled])]) := by
      rw [h4, message_flag_form, htag]
      rfl
    refine ⟨req, ?_, h1, h2, h3, hb, ?_, h6⟩
    · show (sendFormData w t msg Values.empty s).2.sent = _
      rw [h5]
    · rw [hb]
      exact Encode_message_flag msg _ (QueryEscape_alnum msg hal) (formatBool_escape _)
  constructor
  · intro hflag
    obtain ⟨req, h1, h2, h3, h4, -, h6, h7⟩ :=
      general ⟨utf8 "tok", utf8 ""⟩ (utf8 "hello") rfl (by decide) (by decide)
    refine ⟨req, h1, h2, h3, ?_, ?_, ?_, ?_⟩
    · rw [h4]
      exact (header_get_authorization _ _).1
    · rw [h4]
      exact (header_get_authorization _ _).2
    · rw [h6, hflag]
      decide
    · intro resp hresp h200
      rw [h7, hresp]
      simp [h200]
  · intro htag hlen hal
    obtain ⟨req, h1, -, -, -, h5, h6, -⟩ := general t msg htag hlen hal
    exact ⟨req, h1, h5, h6⟩

/-- C9 at the concrete inputs of the scenario: the flag of `sampleState` is false
and `abc123` is six letters and digits. -/
theorem C9_SendMessage_request_witness :
    sampleState.notificationDisabled = false ∧
    (∃ req : Request,
      (SendMessage sampleWorld ⟨utf8 "tok", utf8 ""⟩ (utf8 "hello") sampleState).2.sent =
        sampleState.sent ++ [req] ∧
      req.body.wire = utf8 "message=hello&notificationDisabled=false" ∧
      (SendMessage sampleWorld ⟨utf8 "tok", utf8 ""⟩ (utf8 "hello") sampleState).1 = none) ∧
    (∃ req : Request,
      (SendMessage sampleWorld sampleClient (utf8 "abc123")
        (LineNotificationOff sampleState)).2.sent = sampleState.sent ++ [req] ∧
      req.body.wire = utf8 "message=abc123&notificationDisabled=true") :=
  ⟨rfl,
    ((C9_SendMessage_request sampleWorld sampleClient (utf8 "abc123") sampleState).1 rfl).imp
      (fun req hr => ⟨hr.1, hr.2.2.2.2.2.1, hr.2.2.2.2.2.2 ⟨200, utf8 "200 OK"⟩ rfl rfl⟩),
    ((C9_SendMessage_request sampleWorld sampleClient (utf8 "abc123")
      (LineNotificationOff sampleState)).2 rfl (by decide) (by decide)).imp
      (fun req hr => ⟨hr.1, hr.2.2⟩)⟩


/-! ## The limit and the tag -/

/-- C10: the limit of 1000 code points is checked on the message as given,
before the tag is put in front. With a tag and a message of exactly 1000 code
points, `sendFormData` and `SendImageFile` send a `message` value of 1000 + the
code points of the tag + 3 code points, more than 1000; and either returns the
length error exactly when the message itself has more than 1000 code points,
whatever the tag. -/
theorem C10_limit_checked_before_tag (w : World) (t : LineNotifyToken) (msg : GoString)
    (s : State) :
    (t.Tag ≠ [] → runeCount msg = 1000 →
      ∀ out : Option GoError × State,
        ((∃ form : Values, form.lookup (utf8 "message") = [] ∧
            form.lookup (utf8 "notificationDisabled") = [] ∧
            out = sendFormData w t msg form s) ∨
          (∃ imgpath content : GoString, imgpath ≠ [] ∧ w.fileExists imgpath = true ∧
            (Ext imgpath = utf8 ".jpeg" ∨ Ext imgpath = utf8 ".jpg" ∨
              Ext imgpath = utf8 ".JPEG" ∨ Ext imgpath = utf8 ".JPG" ∨
              Ext imgpath = utf8 ".png" ∨ Ext imgpath = utf8 ".PNG") ∧
            w.osOpen imgpath = .ok (.ok content) ∧
            out = SendImageFile w t msg imgpath s)) →
        ∃ (req : Request) (m : GoString),
          out.2.sent = s.sent ++ [req] ∧ req.body.field (utf8 "message") = [m] ∧
          m = utf8 "[" ++ t.Tag ++ utf8 "]\n" ++ msg ∧
          runeCount m = 1000 + runeCount t.Tag + 3 ∧ 1000 < runeCount m) ∧
    (∀ form : Values,
      (sendFormData w t msg form s).1 =
          some (.new (utf8 "1000文字より多いメッセージは送信できません")) ↔
        1000 < runeCount msg) ∧
    (∀ imgpath : GoString,
      (SendImageFile w t msg imgpath s).1 =
          some (.new (utf8 "1000文字より多いメッセージは送信できません")) ↔
        1000 < runeCount msg) := by
  refine ⟨?_, ?_, ?_⟩
  · intro htag hrc out hout
    have hpos : t.Tag.length > 0 := List.length_pos.mpr htag
    have hcount : runeCount (utf8 "[" ++ t.Tag ++ utf8 "]\n" ++ msg) =
        1000 + runeCount t.Tag + 3 := by
      rw [runeCount_tagged, hrc]
      omega
    rcases hout with ⟨form, hm, hn, rfl⟩ | himg
    · obtain ⟨req, h1, -, -, -, h5, -, -⟩ :=
        sendFormData_fields w t msg form s (by omega) hm hn
      rw [if_pos hpos] at h5
      exact ⟨req, _, h1, h5, rfl, hcount, by omega⟩
    · obtain ⟨req, h1, -, -, -, h5, -, -⟩ :=
        send_valid w t msg s out (by omega) (Or.inr (Or.inr (Or.inr himg)))
      rw [if_pos hpos] at h5
      exact ⟨req, _, h1, h5, rfl, hcount, by omega⟩
  · intro form
    constructor
    · intro he
      by_contra hn
      exact sendFormData_not_length w t msg form s (by omega) he
    · intro hlt
      rw [sendFormData_reject w t msg form s hlt]
  · intro imgpath
    constructor
    · intro he
      by_contra hn
      exact SendImageFile_not_length w t msg imgpath s (by omega) he
    · intro hlt
      rw [SendImageFile_too_long w t msg imgpath s hlt]

/-- C10 at a concrete input: the client tagged `ops` sends 1000 letters `a` with
the file `/tmp/a.png`, and the `message` value has 1006 code points. -/
theorem C10_limit_checked_before_tag_witness :
    taggedClient.Tag ≠ [] ∧ runeCount (List.replicate 1000 (97 : UInt8)) = 1000 ∧
    runeCount taggedClient.Tag = 3 ∧
    ∃ (req : Request) (m : GoString),
      (SendImageFile sampleWorld taggedClient (List.replicate 1000 97) (utf8 "/tmp/a.png")
        sampleState).2.sent = sampleState.sent ++ [req] ∧
      req.body.field (utf8 "message") = [m] ∧
      m = utf8 "[" ++ taggedClient.Tag ++ utf8 "]\n" ++ List.replicate 1000 97 ∧
      runeCount m = 1000 + runeCount taggedClient.Tag + 3 ∧ 1000 < runeCount m :=
  have hrc : runeCount (List.replicate 1000 (97 : UInt8)) = 1000 :=
    runeCount_replicate_ascii 1000 97 (by decide)
  ⟨by decide, hrc, by decide,
    (C10_limit_checked_before_tag sampleWorld taggedClient (List.replicate 1000 97)
      sampleState).1 (by decide) hrc _
      (Or.inr ⟨utf8 "/tmp/a.png", [137, 80, 78, 71], by decide, by decide, by decide,
        sampleWorld_osOpen _ (by decide), rfl⟩)⟩


end GoLine
